import Mathlib

/-!
Verification of the Infuse-IoT host SDK gateway core: a shallow embedding of
the ePacket codec (`src/infuse_iot/epacket/packet.py`), the device database
(`src/infuse_iot/database.py`) and the binary patch engine
(`src/infuse_iot/diff.py`), with theorems settling the frozen claims about
those components.

Conventions of the embedding:
* Python `bytes` values are `List Nat` (each element a byte value `< 256`;
  writes that could overflow take `% 256` exactly where the ctypes layer does).
* Python exceptions are values of `PyErr`; fallible code returns
  `Except PyErr α`.  Methods that mutate state before raising return the
  post-mutation state alongside the outcome where that matters.
* External collaborators of the repository (the `cryptography` package's
  ChaCha20-Poly1305 and HKDF, the `keyring` credential store, `base64`,
  wall-clock time, `random`) are parameters of the functions that call them,
  mirroring exactly the argument wiring of the source.
-/

/-- Byte strings are lists of byte values. -/
abbrev Bytes := List Nat

/-- Python exceptions that the embedded code can raise. -/
inductive PyErr where
  /-- `AttributeError` (access to a missing attribute). -/
  | attributeError
  /-- `TypeError` (e.g. an unexpected keyword argument). -/
  | typeError
  /-- `KeyError` (missing dictionary key). -/
  | keyError
  /-- `IndexError` (sequence index out of range). -/
  | indexError
  /-- `ValueError` (e.g. `ctypes.Structure.from_buffer_copy` on a short buffer). -/
  | valueError
  /-- `AssertionError`. -/
  | assertionError
  /-- `NotImplementedError`. -/
  | notImplementedError
  /-- `RuntimeError`. -/
  | runtimeError
  /-- `OverflowError` (`int.to_bytes` on an out-of-range value). -/
  | overflowError
  /-- `ZeroDivisionError`. -/
  | zeroDivisionError
  /-- `infuse_iot.database.UnknownNetworkError` (a `NoKeyError`). -/
  | unknownNetwork
  /-- `infuse_iot.database.DeviceUnknownDeviceKey` (a `NoKeyError`). -/
  | deviceUnknownDeviceKey
  /-- `infuse_iot.database.DeviceUnknownNetworkKey` (a `NoKeyError`). -/
  | deviceUnknownNetworkKey
  /-- `infuse_iot.database.DeviceKeyChangedError`. -/
  | deviceKeyChanged
  /-- `infuse_iot.diff.ValidationError`. -/
  | validationError
  /-- Marker for a Python loop that can provably not terminate on its own
  (the embedding runs loops on explicit fuel). -/
  | fuelExhausted
  deriving DecidableEq, Repr

/-- The `NoKeyError` subclass of `KeyError`: caught by
`PacketReceived.from_serial` around nested decryption. -/
def PyErr.isNoKey : PyErr → Bool
  | .unknownNetwork => true
  | .deviceUnknownDeviceKey => true
  | .deviceUnknownNetworkKey => true
  | _ => false

/-- Lookup in an insertion-ordered association list (Python `dict.get`). -/
def alist_get {α β : Type} [DecidableEq α] : List (α × β) → α → Option β
  | [], _ => none
  | (k, v) :: rest, key => if k = key then some v else alist_get rest key

/-- Update-or-append on an insertion-ordered association list
(Python `dict.__setitem__`). -/
def alist_set {α β : Type} [DecidableEq α] : List (α × β) → α → β → List (α × β)
  | [], key, value => [(key, value)]
  | (k, v) :: rest, key, value =>
    if k = key then (k, value) :: rest else (k, v) :: alist_set rest key value

/-- Python `int.to_bytes(len, "little")`: little-endian bytes, raising
`OverflowError` when the value does not fit. -/
def int_to_bytes_le (val len : Nat) : Except PyErr Bytes :=
  if val < 256 ^ len then
    .ok ((List.range len).map fun i => val / 256 ^ i % 256)
  else
    .error .overflowError

/-- `int.from_bytes(b, "little")`. -/
def int_from_bytes_le (b : Bytes) : Nat :=
  b.foldr (fun byte acc => byte + 256 * acc) 0

/-- Little-endian encoding of a value into `len` bytes, wrapping modulo
`256 ^ len` (the behaviour of a ctypes integer field). -/
def nat_le_bytes (len val : Nat) : Bytes :=
  (List.range len).map fun i => val / 256 ^ i % 256

/-- Python slice `b[lo:hi]` with the full slicing rules (negative indices
count from the end; out-of-range bounds clamp). -/
def pySlice (b : Bytes) (lo hi : Int) : Bytes :=
  let n : Int := b.length
  let norm : Int → Nat := fun i =>
    if i < 0 then (max (n + i) 0).toNat else (min i n).toNat
  let l := norm lo
  let h := norm hi
  (b.drop l).take (h - l)

/-- Python indexing `b[i]` (negative indices count from the end;
`IndexError` out of range). -/
def pyGet (b : Bytes) (i : Int) : Except PyErr Nat :=
  let n : Int := b.length
  if h : 0 ≤ i ∧ i < n then
    .ok (b.get ⟨i.toNat, by omega⟩)
  else if h2 : -n ≤ i ∧ i < 0 then
    .ok (b.get ⟨(n + i).toNat, by omega⟩)
  else
    .error .indexError

/-- One byte step of IEEE 802.3 CRC-32 (`binascii.crc32`),
reflected polynomial `0xEDB88320`. -/
def crc32_update (crc byte : Nat) : Nat :=
  let c := crc ^^^ byte
  (List.range 8).foldl
    (fun c _ => if c % 2 = 1 then (c / 2) ^^^ 0xEDB88320 else c / 2) c

/-- The byte loop of `binascii.crc32`; the redundant branch keeps the
accumulator forced during kernel evaluation and is erased by
`crc32_loop_eq`. -/
def crc32_loop : Bytes → Nat → Nat
  | [], crc => crc
  | b :: rest, crc =>
    if crc32_update crc b % 2 = 0 then crc32_loop rest (crc32_update crc b)
    else crc32_loop rest (crc32_update crc b)

/-- `binascii.crc32(data)`. -/
def crc32 (data : Bytes) : Nat :=
  crc32_loop data 0xFFFFFFFF ^^^ 0xFFFFFFFF

theorem crc32_loop_eq (data : Bytes) (crc : Nat) :
    crc32_loop data crc = data.foldl crc32_update crc := by
  induction data generalizing crc with
  | nil => rfl
  | cons b rest ih =>
    unfold crc32_loop
    rw [ite_self, List.foldl_cons, ih]

/-- `crc32` is the plain left fold of `crc32_update` with the standard
pre/post complement. -/
theorem crc32_eq_foldl (data : Bytes) :
    crc32 data = (data.foldl crc32_update 0xFFFFFFFF) ^^^ 0xFFFFFFFF := by
  unfold crc32; rw [crc32_loop_eq]

/-! ## Device database (`src/infuse_iot/database.py`) -/

/-- A Bluetooth LE address as held by the database
(`epacket.interface.Address.BluetoothLeAddr`). -/
structure BtAddr where
  addr_type : Nat
  addr_val : Nat
  deriving DecidableEq, Repr

/-- `DeviceDatabase.DeviceState`: per-device record.  Note the record has a
`device_key_id` field and *no* `device_id` field. -/
structure DeviceState where
  infuse_id : Nat
  network_id : Option Nat
  device_key_id : Option Nat
  bt_addr : Option BtAddr
  device_public_key : Option Bytes
  shared_key : Option Bytes
  tx_gatt_seq : Nat
  deriving DecidableEq, Repr

/-- `DeviceState.__init__(infuse_id)` with the optional ids left at their
defaults, as `observe_device` constructs it. -/
def DeviceState.init (infuse_id : Nat) : DeviceState :=
  { infuse_id := infuse_id
    network_id := none
    device_key_id := none
    bt_addr := none
    device_public_key := none
    shared_key := none
    tx_gatt_seq := 0 }

/-- `DeviceDatabase`: the gateway identity, the per-device states, the
Bluetooth address reverse map, and the two (class-level) key caches. -/
structure DeviceDatabase where
  gateway : Option Nat
  devices : List (Nat × DeviceState)
  bt_addr : List (BtAddr × Nat)
  network_keys : List (Nat × Bytes)
  derived_keys : List ((Nat × Bytes × Nat) × Bytes)
  deriving DecidableEq, Repr

/-- `DeviceDatabase.__init__` (no local root key loaded, fresh caches). -/
def DeviceDatabase.init : DeviceDatabase :=
  { gateway := none
    devices := []
    bt_addr := []
    network_keys := []
    derived_keys := [] }

/-- `DeviceDatabase.observe_device`.  The method mutates `self` step by step
and `DeviceKeyChangedError` is raised *between* those mutations, so the
embedding returns the state reached so far together with the outcome. -/
def DeviceDatabase.observe_device (db : DeviceDatabase) (infuse_id : Nat)
    (network_id : Option Nat) (device_key_id : Option Nat)
    (bt_addr : Option BtAddr) : DeviceDatabase × Option PyErr :=
  -- if self.gateway is None: self.gateway = infuse_id
  let db := if db.gateway.isNone then { db with gateway := some infuse_id } else db
  -- if infuse_id not in self.devices: self.devices[infuse_id] = DeviceState(infuse_id)
  let db :=
    if (alist_get db.devices infuse_id).isNone then
      { db with devices := alist_set db.devices infuse_id (DeviceState.init infuse_id) }
    else db
  -- if network_id is not None: self.devices[infuse_id].network_id = network_id
  let db :=
    match network_id with
    | none => db
    | some nid =>
      match alist_get db.devices infuse_id with
      | none => db
      | some st =>
        { db with devices := alist_set db.devices infuse_id { st with network_id := some nid } }
  -- if device_key_id is not None: raise on a changed key, else record it
  match device_key_id with
  | none =>
    -- if bt_addr is not None: record the address both ways
    match bt_addr with
    | none => (db, none)
    | some addr =>
      match alist_get db.devices infuse_id with
      | none => (db, none)
      | some st =>
        ({ db with
            bt_addr := alist_set db.bt_addr addr infuse_id
            devices := alist_set db.devices infuse_id { st with bt_addr := some addr } },
          none)
  | some dkid =>
    match alist_get db.devices infuse_id with
    | none => (db, none)
    | some st =>
      if st.device_key_id.isSome ∧ st.device_key_id ≠ some dkid then
        (db, some .deviceKeyChanged)
      else
        let db :=
          { db with devices := alist_set db.devices infuse_id { st with device_key_id := some dkid } }
        match bt_addr with
        | none => (db, none)
        | some addr =>
          match alist_get db.devices infuse_id with
          | none => (db, none)
          | some st2 =>
            ({ db with
                bt_addr := alist_set db.bt_addr addr infuse_id
                devices := alist_set db.devices infuse_id { st2 with bt_addr := some addr } },
              none)

/-- Arguments of one `observe_device` call. -/
structure ObserveCall where
  infuse_id : Nat
  network_id : Option Nat
  device_key_id : Option Nat
  bt_addr : Option BtAddr
  deriving Repr

/-- A sequence of `observe_device` calls, threading the database state
(exceptions leave the mutations made so far in place, as in Python). -/
def DeviceDatabase.observe_seq (db : DeviceDatabase) : List ObserveCall → DeviceDatabase
  | [] => db
  | c :: rest =>
    ((db.observe_device c.infuse_id c.network_id c.device_key_id c.bt_addr).1).observe_seq rest


/-! ## Key derivation (`src/infuse_iot/database.py`, `src/infuse_iot/util/crypto.py`) -/

/-- ASCII bytes of a literal string (the interface labels `b"serial"`,
`b"bt_adv"`, `b"bt_gatt"`, `b"udp"`). -/
def strBytes (s : String) : Bytes := s.toList.map Char.toNat

/-- `hkdf_derive(input_key, salt, info)` from `util/crypto.py`: HKDF-SHA256
with output length 32.  The HKDF-SHA256 primitive itself lives in the
external `cryptography` package, so it is passed in as a parameter
`hkdf_sha256 length ikm salt info`. -/
def hkdf_derive (hkdf_sha256 : Nat → Bytes → Bytes → Bytes → Bytes)
    (input_key salt info : Bytes) : Bytes :=
  hkdf_sha256 32 input_key salt info

/-- `DeviceDatabase._network_key`.  `load_network` stands for the
`keyring`-backed credential store (`credentials.load_network`), already
projected to the `info["key"]` bytes; `none` models `FileNotFoundError`. -/
def DeviceDatabase._network_key (hkdf_sha256 : Nat → Bytes → Bytes → Bytes → Bytes)
    (load_network : Nat → Option Bytes) (db : DeviceDatabase)
    (network_id : Nat) (interface : Bytes) (gps_time : Nat) :
    Except PyErr (DeviceDatabase × Bytes) :=
  -- if network_id not in self._network_keys: fetch the root from the store
  let fetched : Except PyErr DeviceDatabase :=
    if (alist_get db.network_keys network_id).isNone then
      match load_network network_id with
      | none => .error .unknownNetwork
      | some key =>
        .ok { db with network_keys := alist_set db.network_keys network_id key }
    else .ok db
  match fetched with
  | .error e => .error e
  | .ok db =>
    match alist_get db.network_keys network_id with
    | none => .error .keyError
    | some base =>
      let time_idx := gps_time / (60 * 60 * 24)
      let key_id := (network_id, interface, time_idx)
      -- if key_id not in self._derived_keys: derive and memoise
      let derived : Except PyErr DeviceDatabase :=
        if (alist_get db.derived_keys key_id).isNone then
          match int_to_bytes_le time_idx 4 with
          | .error e => .error e
          | .ok salt =>
            .ok { db with
              derived_keys :=
                alist_set db.derived_keys key_id
                  (hkdf_derive hkdf_sha256 base salt interface) }
        else .ok db
      match derived with
      | .error e => .error e
      | .ok db =>
        match alist_get db.derived_keys key_id with
        | none => .error .keyError
        | some k => .ok (db, k)

/-- `DeviceDatabase._get_network_key`. -/
def DeviceDatabase._get_network_key (hkdf_sha256 : Nat → Bytes → Bytes → Bytes → Bytes)
    (load_network : Nat → Option Bytes) (db : DeviceDatabase)
    (infuse_id : Nat) (name : Bytes) (gps_time : Nat) :
    Except PyErr (DeviceDatabase × Bytes) :=
  match alist_get db.devices infuse_id with
  | none => .error .deviceUnknownNetworkKey
  | some st =>
    match st.network_id with
    | none => .error .deviceUnknownNetworkKey
    | some network_id =>
      db._network_key hkdf_sha256 load_network network_id name gps_time

/-- `DeviceDatabase._get_device_key` (no cache; derives directly from the
device's cloud shared secret). -/
def DeviceDatabase._get_device_key (hkdf_sha256 : Nat → Bytes → Bytes → Bytes → Bytes)
    (db : DeviceDatabase) (infuse_id : Nat) (name : Bytes) (gps_time : Nat) :
    Except PyErr Bytes :=
  match alist_get db.devices infuse_id with
  | none => .error .deviceUnknownDeviceKey
  | some d =>
    if d.device_key_id.isNone then .error .deviceUnknownDeviceKey
    else
      match d.shared_key with
      | none => .error .deviceUnknownDeviceKey
      | some base =>
        let time_idx := gps_time / (60 * 60 * 24)
        match int_to_bytes_le time_idx 4 with
        | .error e => .error e
        | .ok salt => .ok (hkdf_derive hkdf_sha256 base salt name)

/-- `DeviceDatabase.serial_network_key`. -/
def DeviceDatabase.serial_network_key (hkdf_sha256 : Nat → Bytes → Bytes → Bytes → Bytes)
    (load_network : Nat → Option Bytes) (db : DeviceDatabase)
    (infuse_id gps_time : Nat) : Except PyErr (DeviceDatabase × Bytes) :=
  db._get_network_key hkdf_sha256 load_network infuse_id (strBytes "serial") gps_time

/-- `DeviceDatabase.serial_device_key`. -/
def DeviceDatabase.serial_device_key (hkdf_sha256 : Nat → Bytes → Bytes → Bytes → Bytes)
    (db : DeviceDatabase) (infuse_id gps_time : Nat) : Except PyErr Bytes :=
  db._get_device_key hkdf_sha256 infuse_id (strBytes "serial") gps_time

/-- `DeviceDatabase.bt_adv_network_key`. -/
def DeviceDatabase.bt_adv_network_key (hkdf_sha256 : Nat → Bytes → Bytes → Bytes → Bytes)
    (load_network : Nat → Option Bytes) (db : DeviceDatabase)
    (infuse_id gps_time : Nat) : Except PyErr (DeviceDatabase × Bytes) :=
  db._get_network_key hkdf_sha256 load_network infuse_id (strBytes "bt_adv") gps_time

/-- `DeviceDatabase.bt_gatt_network_key`. -/
def DeviceDatabase.bt_gatt_network_key (hkdf_sha256 : Nat → Bytes → Bytes → Bytes → Bytes)
    (load_network : Nat → Option Bytes) (db : DeviceDatabase)
    (infuse_id gps_time : Nat) : Except PyErr (DeviceDatabase × Bytes) :=
  db._get_network_key hkdf_sha256 load_network infuse_id (strBytes "bt_gatt") gps_time

/-- `DeviceDatabase.bt_gatt_device_key`. -/
def DeviceDatabase.bt_gatt_device_key (hkdf_sha256 : Nat → Bytes → Bytes → Bytes → Bytes)
    (db : DeviceDatabase) (infuse_id gps_time : Nat) : Except PyErr Bytes :=
  db._get_device_key hkdf_sha256 infuse_id (strBytes "bt_gatt") gps_time

/-- Well-formedness of the derived-key cache: every entry was produced by the
HKDF formula for its composite key (true of every reachable database state,
since `_network_key` is the only writer). -/
def DerivedKeysWF (hkdf_sha256 : Nat → Bytes → Bytes → Bytes → Bytes)
    (db : DeviceDatabase) : Prop :=
  ∀ n i ti v, alist_get db.derived_keys (n, i, ti) = some v →
    ∃ base, alist_get db.network_keys n = some base ∧ ti < 2 ^ 32 ∧
      v = hkdf_sha256 32 base (nat_le_bytes 4 ti) i

/-! ## ePacket codec (`src/infuse_iot/epacket/packet.py`) -/

/-- Modelled from the spec: `src/infuse_iot/epacket/interface.py` (imported
as `ID`) is not present under `src/`.  The spec gives the tag set
{SERIAL, UDP, BT_ADV, BT_PERIPHERAL, BT_CENTRAL}; the numeric values follow
the legacy `epacket.py` enum (SERIAL=0, UDP=1, BT_ADV=2) extended in spec
order.  No claim depends on the particular numbers, only on the encoding
being injective. -/
inductive Interface where
  | SERIAL
  | UDP
  | BT_ADV
  | BT_PERIPHERAL
  | BT_CENTRAL
  deriving DecidableEq, Repr

/-- Modelled from the spec: the enum value of an interface tag. -/
def Interface.value : Interface → Nat
  | .SERIAL => 0
  | .UDP => 1
  | .BT_ADV => 2
  | .BT_PERIPHERAL => 3
  | .BT_CENTRAL => 4

/-- Modelled from the spec: `Interface(n)`, `ValueError` on a non-member. -/
def Interface.ofValue (n : Nat) : Except PyErr Interface :=
  if n = 0 then .ok .SERIAL
  else if n = 1 then .ok .UDP
  else if n = 2 then .ok .BT_ADV
  else if n = 3 then .ok .BT_PERIPHERAL
  else if n = 4 then .ok .BT_CENTRAL
  else .error .valueError

/-- `InfuseType` from `src/infuse_iot/common.py`. -/
inductive InfuseType where
  | ECHO_REQ
  | ECHO_RSP
  | TDF
  | RPC_CMD
  | RPC_DATA
  | RPC_DATA_ACK
  | RPC_RSP
  | RECEIVED_EPACKET
  | ACK
  | EPACKET_FORWARD
  | SERIAL_LOG
  | MEMFAULT_CHUNK
  | KEY_IDS
  deriving DecidableEq, Repr

/-- The integer value of an `InfuseType` member. -/
def InfuseType.value : InfuseType → Nat
  | .ECHO_REQ => 0
  | .ECHO_RSP => 1
  | .TDF => 2
  | .RPC_CMD => 3
  | .RPC_DATA => 4
  | .RPC_DATA_ACK => 5
  | .RPC_RSP => 6
  | .RECEIVED_EPACKET => 7
  | .ACK => 8
  | .EPACKET_FORWARD => 9
  | .SERIAL_LOG => 10
  | .MEMFAULT_CHUNK => 30
  | .KEY_IDS => 127

/-- `InfuseType(n)`: `ValueError` on a non-member. -/
def InfuseType.ofValue (n : Nat) : Except PyErr InfuseType :=
  if n = 0 then .ok .ECHO_REQ
  else if n = 1 then .ok .ECHO_RSP
  else if n = 2 then .ok .TDF
  else if n = 3 then .ok .RPC_CMD
  else if n = 4 then .ok .RPC_DATA
  else if n = 5 then .ok .RPC_DATA_ACK
  else if n = 6 then .ok .RPC_RSP
  else if n = 7 then .ok .RECEIVED_EPACKET
  else if n = 8 then .ok .ACK
  else if n = 9 then .ok .EPACKET_FORWARD
  else if n = 10 then .ok .SERIAL_LOG
  else if n = 30 then .ok .MEMFAULT_CHUNK
  else if n = 127 then .ok .KEY_IDS
  else .error .valueError

/-- `Auth` from `epacket/packet.py`. -/
inductive Auth where
  | DEVICE
  | NETWORK
  deriving DecidableEq, Repr

/-- The enum value of an `Auth` member (`DEVICE = 0`, `NETWORK = 1`). -/
def Auth.value : Auth → Nat
  | .DEVICE => 0
  | .NETWORK => 1

/-- `Auth(n)`: `ValueError` on a non-member. -/
def Auth.ofValue (n : Nat) : Except PyErr Auth :=
  if n = 0 then .ok .DEVICE
  else if n = 1 then .ok .NETWORK
  else .error .valueError

/-- `Flags.ENCR_DEVICE` (header flags bit 15). -/
def Flags.ENCR_DEVICE : Nat := 0x8000

/-- `Flags.ENCR_NETWORK`. -/
def Flags.ENCR_NETWORK : Nat := 0x0000

/-- `InterfaceAddress` from `epacket/packet.py`: serial (empty) or
Bluetooth LE (type byte + 48-bit value). -/
inductive InterfaceAddress where
  | serialAddr : InterfaceAddress
  | bluetoothLeAddr (addr_type : Nat) (addr_val : Nat) : InterfaceAddress
  deriving DecidableEq, Repr

/-- `InterfaceAddress.len`: the encoded size (0 for serial, 7 for BT LE). -/
def InterfaceAddress.addrLen : InterfaceAddress → Nat
  | .serialAddr => 0
  | .bluetoothLeAddr _ _ => 7

/-- `InterfaceAddress.from_bytes`: asserts a Bluetooth interface, then reads
the packed `type(u8) + addr(6B little-endian)` structure. -/
def InterfaceAddress.from_bytes (interface : Interface) (stream : Bytes) :
    Except PyErr InterfaceAddress :=
  if interface = .BT_ADV ∨ interface = .BT_PERIPHERAL ∨ interface = .BT_CENTRAL then
    if stream.length < 7 then .error .valueError
    else .ok (.bluetoothLeAddr (stream.getD 0 0) (int_from_bytes_le ((stream.drop 1).take 6)))
  else .error .assertionError

/-- `HopOutput`. -/
structure HopOutput where
  infuse_id : Nat
  interface : Interface
  auth : Auth
  deriving DecidableEq, Repr

/-- `HopReceived`.  `rssi` is a signed value (Python int). -/
structure HopReceived where
  infuse_id : Nat
  interface : Interface
  interface_address : InterfaceAddress
  auth : Auth
  key_identifier : Nat
  gps_time : Nat
  sequence : Nat
  rssi : Int
  deriving DecidableEq, Repr

/-- `PacketReceived`. -/
structure PacketReceived where
  route : List HopReceived
  ptype : InfuseType
  payload : Bytes
  deriving DecidableEq, Repr

/-- `PacketOutput`. -/
structure PacketOutput where
  route : List HopOutput
  ptype : InfuseType
  payload : Bytes
  deriving DecidableEq, Repr

/-- `CtypeV0VersionedFrame`: the version-0 ePacket header, 23 bytes packed
little-endian.  `key_metadata` is the 24-bit integer view of the raw
3-byte field; the `device_id` field is stored as two u32 halves, upper
half first. -/
structure CtypeV0VersionedFrame where
  version : Nat
  _type : Nat
  flags : Nat
  key_metadata : Nat
  _device_id_upper : Nat
  _device_id_lower : Nat
  gps_time : Nat
  sequence : Nat
  entropy : Nat
  deriving DecidableEq, Repr

/-- The `device_id` property: `(upper << 32) | lower`. -/
def CtypeV0VersionedFrame.device_id (h : CtypeV0VersionedFrame) : Nat :=
  h._device_id_upper <<< 32 ||| h._device_id_lower

/-- The packed 23-byte little-endian serialization of the header (each
ctypes field wraps modulo its width). -/
def CtypeV0VersionedFrame.bytes (h : CtypeV0VersionedFrame) : Bytes :=
  [h.version % 256, h._type % 256,
   h.flags % 256, h.flags / 256 % 256,
   h.key_metadata % 256, h.key_metadata / 256 % 256, h.key_metadata / 65536 % 256,
   h._device_id_upper % 256, h._device_id_upper / 256 % 256,
   h._device_id_upper / 65536 % 256, h._device_id_upper / 16777216 % 256,
   h._device_id_lower % 256, h._device_id_lower / 256 % 256,
   h._device_id_lower / 65536 % 256, h._device_id_lower / 16777216 % 256,
   h.gps_time % 256, h.gps_time / 256 % 256,
   h.gps_time / 65536 % 256, h.gps_time / 16777216 % 256,
   h.sequence % 256, h.sequence / 256 % 256,
   h.entropy % 256, h.entropy / 256 % 256]

/-- `CtypeV0VersionedFrame.from_buffer_copy`: parse the 23-byte packed
header (`ValueError` on a short buffer). -/
def frame_from_buffer (frame : Bytes) : Except PyErr CtypeV0VersionedFrame :=
  if frame.length < 23 then .error .valueError
  else .ok
    { version := frame.getD 0 0
      _type := frame.getD 1 0
      flags := int_from_bytes_le ((frame.drop 2).take 2)
      key_metadata := int_from_bytes_le ((frame.drop 4).take 3)
      _device_id_upper := int_from_bytes_le ((frame.drop 7).take 4)
      _device_id_lower := int_from_bytes_le ((frame.drop 11).take 4)
      gps_time := int_from_bytes_le ((frame.drop 15).take 4)
      sequence := int_from_bytes_le ((frame.drop 19).take 2)
      entropy := int_from_bytes_le ((frame.drop 21).take 2) }

/-- `CtypeSerialFrame.hop_received`. -/
def CtypeSerialFrame.hop_received (h : CtypeV0VersionedFrame) : HopReceived :=
  { infuse_id := h.device_id
    interface := .SERIAL
    interface_address := .serialAddr
    auth := if h.flags &&& Flags.ENCR_DEVICE ≠ 0 then .DEVICE else .NETWORK
    key_identifier := h.key_metadata
    gps_time := h.gps_time
    sequence := h.sequence
    rssi := 0 }

/-- `PacketOutput.to_serial`: encode and encrypt a single-hop packet for
serial transmission.  `chachapoly_encrypt` is the external AEAD primitive;
`gps_time` stands for `InfuseTime.gps_seconds_from_unix(int(time.time()))`
and `entropy` for `random.randint(0, 65535)`.

In the DEVICE branch the source reads
`database.devices[route.infuse_id].device_id`, but `DeviceState` has no
`device_id` attribute (the field is `device_key_id`), so Python raises
`AttributeError` there. -/
def PacketOutput.to_serial
    (chachapoly_encrypt : Bytes → Bytes → Bytes → Bytes → Bytes)
    (hkdf_sha256 : Nat → Bytes → Bytes → Bytes → Bytes)
    (load_network : Nat → Option Bytes)
    (db : DeviceDatabase) (pkt : PacketOutput) (gps_time entropy : Nat) :
    Except PyErr (DeviceDatabase × Bytes) :=
  -- assert len(self.route) == 1
  match pkt.route with
  | [route] =>
    let branch : Except PyErr (DeviceDatabase × Nat × Option Nat × Bytes) :=
      match route.auth with
      | .NETWORK =>
        match alist_get db.devices route.infuse_id with
        | none => .error .keyError
        | some st =>
          match DeviceDatabase.serial_network_key hkdf_sha256 load_network db
              route.infuse_id gps_time with
          | .error e => .error e
          | .ok (db, key) => .ok (db, Flags.ENCR_NETWORK, st.network_id, key)
      | .DEVICE =>
        match alist_get db.devices route.infuse_id with
        | none => .error .keyError
        | some _ =>
          -- DeviceState has no `device_id` attribute: AttributeError
          .error .attributeError
    match branch with
    | .error e => .error e
    | .ok (db, flags, key_metadata, key) =>
      -- header.key_metadata = key_metadata  (None.to_bytes -> AttributeError;
      -- an over-wide value -> OverflowError from int.to_bytes(3))
      match key_metadata with
      | none => .error .attributeError
      | some km =>
        if km < 2 ^ 24 then
          -- header.device_id = database.gateway (None >> 32 -> TypeError)
          match db.gateway with
          | none => .error .typeError
          | some gw =>
            let header : CtypeV0VersionedFrame :=
              { version := 0
                _type := pkt.ptype.value
                flags := flags
                key_metadata := km
                _device_id_upper := (gw >>> 32) % 2 ^ 32
                _device_id_lower := gw &&& 0xFFFFFFFF
                gps_time := gps_time % 2 ^ 32
                sequence := 0
                entropy := entropy % 2 ^ 16 }
            let header_bytes := header.bytes
            .ok (db, header_bytes ++
              chachapoly_encrypt key (header_bytes.take 11) (header_bytes.drop 11)
                pkt.payload)
        else .error .overflowError
  | _ => .error .assertionError

/-- `CtypeSerialFrame.decrypt`.  Returns the database state alongside the
outcome because `observe_device`'s mutations persist when a later step
raises.

In the DEVICE branch the source calls
`database.observe_device(header.device_id, device_id=header.key_metadata)`,
but `observe_device` has no `device_id` keyword parameter (it is
`device_key_id`), so Python raises `TypeError` before any mutation. -/
def CtypeSerialFrame.decrypt
    (chachapoly_decrypt : Bytes → Bytes → Bytes → Bytes → Except PyErr Bytes)
    (hkdf_sha256 : Nat → Bytes → Bytes → Bytes → Bytes)
    (load_network : Nat → Option Bytes)
    (db : DeviceDatabase) (frame : Bytes) :
    DeviceDatabase × Except PyErr (CtypeV0VersionedFrame × Bytes) :=
  match frame_from_buffer frame with
  | .error e => (db, .error e)
  | .ok header =>
    if header.flags &&& Flags.ENCR_DEVICE ≠ 0 then
      (db, .error .typeError)
    else
      let db := (db.observe_device header.device_id (some header.key_metadata) none none).1
      match DeviceDatabase.serial_network_key hkdf_sha256 load_network db
          header.device_id header.gps_time with
      | .error e => (db, .error e)
      | .ok (db, key) =>
        match chachapoly_decrypt key (frame.take 11) ((frame.drop 11).take 12)
            (frame.drop 23) with
        | .error e => (db, .error e)
        | .ok decrypted => (db, .ok (header, decrypted))

/-- `CtypeBtAdvFrame.decrypt` (DEVICE flag: `NotImplementedError`). -/
def CtypeBtAdvFrame.decrypt
    (chachapoly_decrypt : Bytes → Bytes → Bytes → Bytes → Except PyErr Bytes)
    (hkdf_sha256 : Nat → Bytes → Bytes → Bytes → Bytes)
    (load_network : Nat → Option Bytes)
    (db : DeviceDatabase) (frame : Bytes) :
    DeviceDatabase × Except PyErr (CtypeV0VersionedFrame × Bytes) :=
  match frame_from_buffer frame with
  | .error e => (db, .error e)
  | .ok header =>
    if header.flags &&& Flags.ENCR_DEVICE ≠ 0 then
      (db, .error .notImplementedError)
    else
      let db := (db.observe_device header.device_id (some header.key_metadata) none none).1
      match DeviceDatabase.bt_adv_network_key hkdf_sha256 load_network db
          header.device_id header.gps_time with
      | .error e => (db, .error e)
      | .ok (db, key) =>
        match chachapoly_decrypt key (frame.take 11) ((frame.drop 11).take 12)
            (frame.drop 23) with
        | .error e => (db, .error e)
        | .ok decrypted => (db, .ok (header, decrypted))

/-- `CtypeBtGattFrame.decrypt`.  Like the serial frame, the DEVICE branch
passes the unknown keyword `device_id` to `observe_device`: `TypeError`. -/
def CtypeBtGattFrame.decrypt
    (chachapoly_decrypt : Bytes → Bytes → Bytes → Bytes → Except PyErr Bytes)
    (hkdf_sha256 : Nat → Bytes → Bytes → Bytes → Bytes)
    (load_network : Nat → Option Bytes)
    (db : DeviceDatabase) (frame : Bytes) :
    DeviceDatabase × Except PyErr (CtypeV0VersionedFrame × Bytes) :=
  match frame_from_buffer frame with
  | .error e => (db, .error e)
  | .ok header =>
    if header.flags &&& Flags.ENCR_DEVICE ≠ 0 then
      (db, .error .typeError)
    else
      let db := (db.observe_device header.device_id (some header.key_metadata) none none).1
      match DeviceDatabase.bt_gatt_network_key hkdf_sha256 load_network db
          header.device_id header.gps_time with
      | .error e => (db, .error e)
      | .ok (db, key) =>
        match chachapoly_decrypt key (frame.take 11) ((frame.drop 11).take 12)
            (frame.drop 23) with
        | .error e => (db, .error e)
        | .ok decrypted => (db, .ok (header, decrypted))

/-- `CtypePacketReceived.CommonHeader`: 4-byte nested-container entry
header. -/
structure CommonHeader where
  _len_encr : Nat
  _rssi : Nat
  _if : Nat
  deriving DecidableEq, Repr

/-- `CommonHeader.from_buffer_copy`. -/
def CommonHeader.parse (b : Bytes) : Except PyErr CommonHeader :=
  if b.length < 4 then .error .valueError
  else .ok
    { _len_encr := int_from_bytes_le (b.take 2)
      _rssi := b.getD 2 0
      _if := b.getD 3 0 }

/-- The `len` property: low 15 bits. -/
def CommonHeader.len (c : CommonHeader) : Nat := c._len_encr &&& 0x7FFF

/-- The `encrypted` property: bit 15. -/
def CommonHeader.encrypted (c : CommonHeader) : Bool := c._len_encr &&& 0x8000 ≠ 0

/-- The `rssi` property: `0 - self._rssi` (RSSI is stored as magnitude and
negated on decode). -/
def CommonHeader.rssi (c : CommonHeader) : Int := 0 - (c._rssi : Int)

/-- `CtypePacketReceived.DecryptedHeader`: 20-byte packed plaintext inner
header. -/
structure DecryptedHeader where
  device_id : Nat
  gps_time : Nat
  _type : Nat
  flags : Nat
  sequence : Nat
  key_id : Nat
  deriving DecidableEq, Repr

/-- `DecryptedHeader.from_buffer_copy`. -/
def DecryptedHeader.parse (b : Bytes) : Except PyErr DecryptedHeader :=
  if b.length < 20 then .error .valueError
  else .ok
    { device_id := int_from_bytes_le (b.take 8)
      gps_time := int_from_bytes_le ((b.drop 8).take 4)
      _type := b.getD 12 0
      flags := int_from_bytes_le ((b.drop 13).take 2)
      sequence := int_from_bytes_le ((b.drop 15).take 2)
      key_id := int_from_bytes_le ((b.drop 17).take 3) }

/-- The body of `PacketReceived.from_serial`'s `while len(buffer) > 0` loop
over a RECEIVED_EPACKET payload.  The loop runs on explicit fuel (each
Python iteration either consumes at least one buffer byte or raises). -/
def from_serial_loop
    (chachapoly_decrypt : Bytes → Bytes → Bytes → Bytes → Except PyErr Bytes)
    (hkdf_sha256 : Nat → Bytes → Bytes → Bytes → Bytes)
    (load_network : Nat → Option Bytes)
    (carrier : HopReceived) :
    Nat → DeviceDatabase → Bytes → List PacketReceived →
    DeviceDatabase × Except PyErr (List PacketReceived)
  | 0, db, buffer, packets =>
    if buffer.isEmpty then (db, .ok packets.reverse) else (db, .error .fuelExhausted)
  | fuel + 1, db, buffer, packets =>
    if buffer.isEmpty then (db, .ok packets.reverse)
    else
      match CommonHeader.parse buffer with
      | .error e => (db, .error e)
      | .ok common =>
        let packet_bytes := (buffer.take common.len).drop 4
        let buffer2 := buffer.drop common.len
        match Interface.ofValue common._if with
        | .error e => (db, .error e)
        | .ok iface =>
          -- decode_mapping: only the Bluetooth interfaces are supported
          if iface = .SERIAL ∨ iface = .UDP then (db, .error .notImplementedError)
          else
            match InterfaceAddress.from_bytes iface packet_bytes with
            | .error e => (db, .error e)
            | .ok addr =>
              let packet_bytes := packet_bytes.drop addr.addrLen
              if common.encrypted then
                let step :=
                  if iface = .BT_ADV then
                    CtypeBtAdvFrame.decrypt chachapoly_decrypt hkdf_sha256 load_network
                      db packet_bytes
                  else
                    CtypeBtGattFrame.decrypt chachapoly_decrypt hkdf_sha256 load_network
                      db packet_bytes
                match step with
                | (db, .error e) =>
                  if e.isNoKey then
                    from_serial_loop chachapoly_decrypt hkdf_sha256 load_network carrier
                      fuel db buffer2 packets
                  else (db, .error e)
                | (db, .ok (fheader, fdecrypted)) =>
                  match InfuseType.ofValue fheader._type with
                  | .error e => (db, .error e)
                  | .ok ftype =>
                    let bt_hop : HopReceived :=
                      { infuse_id := fheader.device_id
                        interface := iface
                        interface_address := addr
                        auth :=
                          if fheader.flags &&& Flags.ENCR_DEVICE ≠ 0 then .DEVICE
                          else .NETWORK
                        key_identifier := fheader.key_metadata
                        gps_time := fheader.gps_time
                        sequence := fheader.sequence
                        rssi := common.rssi }
                    from_serial_loop chachapoly_decrypt hkdf_sha256 load_network carrier
                      fuel db buffer2
                      ({ route := [bt_hop, carrier], ptype := ftype,
                         payload := fdecrypted } :: packets)
              else
                match DecryptedHeader.parse packet_bytes with
                | .error e => (db, .error e)
                | .ok dheader =>
                  match InfuseType.ofValue dheader._type with
                  | .error e => (db, .error e)
                  | .ok dtype =>
                    let bt_hop : HopReceived :=
                      { infuse_id := dheader.device_id
                        interface := iface
                        interface_address := addr
                        auth :=
                          if dheader.flags &&& Flags.ENCR_DEVICE ≠ 0 then .DEVICE
                          else .NETWORK
                        key_identifier := dheader.key_id
                        gps_time := dheader.gps_time
                        sequence := dheader.sequence
                        rssi := common.rssi }
                    from_serial_loop chachapoly_decrypt hkdf_sha256 load_network carrier
                      fuel db buffer2
                      ({ route := [bt_hop, carrier], ptype := dtype,
                         payload := packet_bytes.drop 20 } :: packets)

/-- `PacketReceived.from_serial`: decrypt the serial frame; a
non-RECEIVED_EPACKET type yields one single-hop packet, a RECEIVED_EPACKET
payload is unpacked entry by entry. -/
def PacketReceived.from_serial
    (chachapoly_decrypt : Bytes → Bytes → Bytes → Bytes → Except PyErr Bytes)
    (hkdf_sha256 : Nat → Bytes → Bytes → Bytes → Bytes)
    (load_network : Nat → Option Bytes)
    (db : DeviceDatabase) (serial_frame : Bytes) :
    DeviceDatabase × Except PyErr (List PacketReceived) :=
  match CtypeSerialFrame.decrypt chachapoly_decrypt hkdf_sha256 load_network db
      serial_frame with
  | (db, .error e) => (db, .error e)
  | (db, .ok (header, decrypted)) =>
    match InfuseType.ofValue header._type with
    | .error e => (db, .error e)
    | .ok htype =>
      if htype ≠ InfuseType.RECEIVED_EPACKET then
        (db, .ok [{ route := [CtypeSerialFrame.hop_received header], ptype := htype,
                    payload := decrypted }])
      else
        from_serial_loop chachapoly_decrypt hkdf_sha256 load_network
          (CtypeSerialFrame.hop_received header) (decrypted.length + 1) db decrypted []

/-! ## Well-formed nested-container entries (statement apparatus for the
RECEIVED_EPACKET claims) -/

/-- One entry of a RECEIVED_EPACKET payload, in the field order of the wire
layout: common header (length/encrypted, |rssi| byte, interface byte),
Bluetooth interface address (type byte + 6 address bytes), inner frame. -/
structure ContainedEntry where
  encrypted : Bool
  rssiByte : Nat
  ifByte : Nat
  addrType : Nat
  addrBytes : Bytes
  frame : Bytes
  deriving DecidableEq, Repr

/-- The `_len_encr` field of an entry: total entry length in the low 15
bits, encrypted flag in bit 15. -/
def ContainedEntry.lenEncr (e : ContainedEntry) : Nat :=
  (11 + e.frame.length) + (if e.encrypted then 32768 else 0)

/-- Wire bytes of one entry (common header + address + inner frame). -/
def ContainedEntry.entryBytes (e : ContainedEntry) : Bytes :=
  [e.lenEncr % 256, e.lenEncr / 256 % 256, e.rssiByte, e.ifByte, e.addrType] ++
    e.addrBytes ++ e.frame

/-- Wire bytes of a whole RECEIVED_EPACKET payload. -/
def entriesBytes (entries : List ContainedEntry) : Bytes :=
  (entries.map ContainedEntry.entryBytes).flatten

/-- The origin device id carried in an entry's inner header (the u64
`device_id`, stored upper-half first for encrypted inner ePacket headers and
as a plain u64 for plaintext inner headers). -/
def ContainedEntry.originId (e : ContainedEntry) : Nat :=
  if e.encrypted then
    int_from_bytes_le ((e.frame.drop 7).take 4) <<< 32 |||
      int_from_bytes_le ((e.frame.drop 11).take 4)
  else
    int_from_bytes_le (e.frame.take 8)

/-- A decodable entry: a Bluetooth interface byte, a 6-byte address, an
entry length that fits the 15-bit length field, byte-valued frame contents,
and an inner frame that parses (23-byte network-auth inner header for the
encrypted form, 20-byte decrypted header for the plaintext form, with a
valid packet type byte). -/
def EntryWF (e : ContainedEntry) : Prop :=
  (e.ifByte = 2 ∨ e.ifByte = 3 ∨ e.ifByte = 4) ∧
  e.addrBytes.length = 6 ∧
  11 + e.frame.length < 2 ^ 15 ∧
  (∀ b ∈ e.frame, b < 256) ∧
  (if e.encrypted then
    23 ≤ e.frame.length ∧
    int_from_bytes_le ((e.frame.drop 2).take 2) &&& Flags.ENCR_DEVICE = 0 ∧
    ∃ ty, InfuseType.ofValue (e.frame.getD 1 0) = .ok ty
  else
    20 ≤ e.frame.length ∧
    ∃ ty, InfuseType.ofValue (e.frame.getD 12 0) = .ok ty)

/-- What the claim asserts of the packet decoded from one entry: a two-hop
route whose first hop is the origin device on the entry's Bluetooth
interface at the entry's address, with RSSI the negation of the unsigned
rssi byte, and whose second hop is the carrier hop. -/
def NestedDecodeOK (carrier : HopReceived) (e : ContainedEntry)
    (p : PacketReceived) : Prop :=
  ∃ hop, p.route = [hop, carrier] ∧
    hop.interface.value = e.ifByte ∧
    hop.interface_address = .bluetoothLeAddr e.addrType (int_from_bytes_le e.addrBytes) ∧
    hop.rssi = -(e.rssiByte : Int) ∧
    hop.infuse_id = e.originId

/-- The decoded `Interface` of an entry with a Bluetooth interface byte. -/
def ContainedEntry.iface (e : ContainedEntry) : Interface :=
  if e.ifByte = 2 then .BT_ADV
  else if e.ifByte = 3 then .BT_PERIPHERAL
  else .BT_CENTRAL

/-! ## JSON serialization for the IPC bus (`epacket/packet.py`
`to_json`/`from_json`) -/

/-- JSON values as used by the IPC bus messages: integers, strings
(byte sequences), objects and arrays. -/
inductive JVal where
  | jnum (n : Int)
  | jstr (s : Bytes)
  | jobj (fields : List (String × JVal))
  | jarr (items : List JVal)

/-- `values[k]` on a JSON object (`KeyError` when absent). -/
def jget (d : List (String × JVal)) (k : String) : Except PyErr JVal :=
  match alist_get d k with
  | none => .error .keyError
  | some v => .ok v

/-- Use a JSON value as an integer. -/
def JVal.asInt : JVal → Except PyErr Int
  | .jnum n => .ok n
  | _ => .error .typeError

/-- Use a JSON value as a string. -/
def JVal.asStr : JVal → Except PyErr Bytes
  | .jstr s => .ok s
  | _ => .error .typeError

/-- `InterfaceAddress.to_json` (including the nested address classes). -/
def InterfaceAddress.to_json : InterfaceAddress → JVal
  | .serialAddr => .jobj [("i", .jstr (strBytes "SERIAL"))]
  | .bluetoothLeAddr t v =>
    .jobj [("i", .jstr (strBytes "BT")), ("t", .jnum t), ("v", .jnum v)]

/-- `InterfaceAddress.from_json`: dispatch on the `"i"` tag
(`NotImplementedError` on an unknown tag). -/
def InterfaceAddress.from_json (v : JVal) : Except PyErr InterfaceAddress :=
  match v with
  | .jobj d =>
    match jget d "i" with
    | .error e => .error e
    | .ok tag =>
      match tag.asStr with
      | .error e => .error e
      | .ok s =>
        if s = strBytes "BT" then
          match jget d "t" with
          | .error e => .error e
          | .ok tv =>
            match tv.asInt with
            | .error e => .error e
            | .ok t =>
              match jget d "v" with
              | .error e => .error e
              | .ok vv =>
                match vv.asInt with
                | .error e => .error e
                | .ok val => .ok (.bluetoothLeAddr t.toNat val.toNat)
        else if s = strBytes "SERIAL" then .ok .serialAddr
        else .error .notImplementedError
  | _ => .error .typeError

/-- `HopReceived.to_json`. -/
def HopReceived.to_json (hop : HopReceived) : JVal :=
  .jobj [("id", .jnum hop.infuse_id),
         ("interface", .jnum hop.interface.value),
         ("interface_addr", hop.interface_address.to_json),
         ("auth", .jnum hop.auth.value),
         ("key_id", .jnum hop.key_identifier),
         ("time", .jnum hop.gps_time),
         ("seq", .jnum hop.sequence),
         ("rssi", .jnum hop.rssi)]

/-- `HopReceived.from_json`. -/
def HopReceived.from_json (v : JVal) : Except PyErr HopReceived :=
  match v with
  | .jobj d =>
    match jget d "interface" with
    | .error e => .error e
    | .ok iv =>
      match iv.asInt with
      | .error e => .error e
      | .ok ival =>
        match Interface.ofValue ival.toNat with
        | .error e => .error e
        | .ok interface =>
          match jget d "id" with
          | .error e => .error e
          | .ok idv =>
            match idv.asInt with
            | .error e => .error e
            | .ok idval =>
              match jget d "interface_addr" with
              | .error e => .error e
              | .ok av =>
                match InterfaceAddress.from_json av with
                | .error e => .error e
                | .ok addr =>
                  match jget d "auth" with
                  | .error e => .error e
                  | .ok auv =>
                    match auv.asInt with
                    | .error e => .error e
                    | .ok aval =>
                      match Auth.ofValue aval.toNat with
                      | .error e => .error e
                      | .ok auth =>
                        match jget d "key_id" with
                        | .error e => .error e
                        | .ok kv =>
                          match kv.asInt with
                          | .error e => .error e
                          | .ok kval =>
                            match jget d "time" with
                            | .error e => .error e
                            | .ok tv =>
                              match tv.asInt with
                              | .error e => .error e
                              | .ok tval =>
                                match jget d "seq" with
                                | .error e => .error e
                                | .ok sv =>
                                  match sv.asInt with
                                  | .error e => .error e
                                  | .ok sval =>
                                    match jget d "rssi" with
                                    | .error e => .error e
                                    | .ok rv =>
                                      match rv.asInt with
                                      | .error e => .error e
                                      | .ok rval =>
                                        .ok { infuse_id := idval.toNat
                                              interface := interface
                                              interface_address := addr
                                              auth := auth
                                              key_identifier := kval.toNat
                                              gps_time := tval.toNat
                                              sequence := sval.toNat
                                              rssi := rval }
  | _ => .error .typeError

/-- The list comprehension over `values["route"]`. -/
def HopReceived.from_json_list : List JVal → Except PyErr (List HopReceived)
  | [] => .ok []
  | v :: rest =>
    match HopReceived.from_json v with
    | .error e => .error e
    | .ok h =>
      match from_json_list rest with
      | .error e => .error e
      | .ok hs => .ok (h :: hs)

/-- `PacketReceived.to_json`; `b64encode` is the external `base64` module's
encoder. -/
def PacketReceived.to_json (b64encode : Bytes → Bytes) (p : PacketReceived) : JVal :=
  .jobj [("route", .jarr (p.route.map HopReceived.to_json)),
         ("type", .jnum p.ptype.value),
         ("payload", .jstr (b64encode p.payload))]

/-- `PacketReceived.from_json`; `b64decode` is the external decoder. -/
def PacketReceived.from_json (b64decode : Bytes → Except PyErr Bytes) (v : JVal) :
    Except PyErr PacketReceived :=
  match v with
  | .jobj d =>
    match jget d "route" with
    | .error e => .error e
    | .ok rv =>
      match rv with
      | .jarr items =>
        match HopReceived.from_json_list items with
        | .error e => .error e
        | .ok route =>
          match jget d "type" with
          | .error e => .error e
          | .ok tv =>
            match tv.asInt with
            | .error e => .error e
            | .ok tval =>
              match InfuseType.ofValue tval.toNat with
              | .error e => .error e
              | .ok ptype =>
                match jget d "payload" with
                | .error e => .error e
                | .ok pv =>
                  match pv.asStr with
                  | .error e => .error e
                  | .ok pstr =>
                    match b64decode pstr with
                    | .error e => .error e
                    | .ok payload => .ok { route := route, ptype := ptype, payload := payload }
      | _ => .error .typeError
  | _ => .error .typeError

/-! ## Binary patch engine (`src/infuse_iot/diff.py`) -/

/-- Patch instructions (`CopyInstr`, `WriteInstr`, `WriteCachedInstr`,
`SetAddrInstr`, `PatchInstr`).  A decoded copy carries
`original_offset = -1`; generation-side copies carry their source offset. -/
inductive Instr where
  | copyInstr (length : Nat) (original_offset : Int)
  | writeInstr (data : Bytes)
  | writeCachedInstr (idx : Nat) (write_len : Nat)
  | setAddrInstr (old new : Int)
  | patchInstr (operations : List Instr)
  deriving Repr

/-- `CopyInstr.__init__`: asserts a nonzero length. -/
def mkCopy (length : Nat) (original_offset : Int) : Except PyErr Instr :=
  if length = 0 then .error .assertionError
  else .ok (.copyInstr length original_offset)

/-- `WriteInstr.__init__`: asserts nonempty data. -/
def mkWrite (data : Bytes) : Except PyErr Instr :=
  if data.length = 0 then .error .assertionError
  else .ok (.writeInstr data)

/-- The `shift` of a `SetAddrInstr`. -/
def Instr.shift : Instr → Int
  | .setAddrInstr old new => new - old
  | _ => 0

/-- Little-endian serialization of a (possibly negative) ctypes integer
field: two's complement modulo `256 ^ len`. -/
def int_le_bytes (len : Nat) (v : Int) : Bytes :=
  nat_le_bytes len (v.emod (256 ^ len)).toNat

/-- `bytes(instr)` (`__bytes__`) for every instruction class.  The PATCH
macro encoding walks its operations pairwise: a copy byte (high bit set
when a 1-byte write follows), an optional write-length byte, the write
data; a zero byte terminates. -/
def patchOpsBytes : List Instr → Except PyErr Bytes
  | [] => .ok []
  | copy_op :: rest =>
    match copy_op with
    | .copyInstr clen _ =>
      if clen < 128 ∧ clen ≠ 0 then
        match rest with
        | [] => .ok [clen]
        | write_op :: rest2 =>
          match write_op with
          | .writeInstr data =>
            let val := if data.length = 1 then 0x80 ||| clen else clen
            if data.length < 256 ∧ data.length ≠ 0 then
              match patchOpsBytes rest2 with
              | .error e => .error e
              | .ok tail =>
                .ok (val :: ((if data.length > 1 then [data.length] else []) ++
                  data ++ tail))
            else .error .assertionError
          | _ => .error .attributeError
      else .error .assertionError
    | _ => .error .assertionError

/-- `bytes(instr)`. -/
def instrBytes : Instr → Except PyErr Bytes
  | .copyInstr length _ =>
    if length < 16 then .ok [0x00 ||| length]
    else if length < 4096 then .ok [0x10 ||| (length >>> 8), length &&& 0xFF]
    else if length < 1048576 then
      .ok ((0x20 ||| (length >>> 16)) :: nat_le_bytes 2 (length &&& 0xFFFF))
    else .ok (0x30 :: nat_le_bytes 4 length)
  | .writeInstr data =>
    if data.length < 16 then .ok ((0x40 ||| data.length) :: data)
    else if data.length < 4096 then
      .ok ([0x50 ||| (data.length >>> 8), data.length &&& 0xFF] ++ data)
    else if data.length < 1048576 then
      .ok (((0x60 ||| (data.length >>> 16)) :: nat_le_bytes 2 (data.length &&& 0xFFFF))
        ++ data)
    else .ok ((0x70 :: nat_le_bytes 4 data.length) ++ data)
  | .writeCachedInstr idx _ => .ok [0x80 ||| idx]
  | .setAddrInstr old new =>
    let shift : Int := new - old
    if -128 ≤ shift ∧ shift ≤ 127 then .ok (0x90 :: int_le_bytes 1 shift)
    else if -32768 ≤ shift ∧ shift ≤ 32767 then .ok (0xA0 :: int_le_bytes 2 shift)
    else .ok (0xB0 :: int_le_bytes 4 new)
  | .patchInstr operations =>
    match patchOpsBytes operations with
    | .error e => .error e
    | .ok body => .ok (0xC0 :: body ++ [0])

/-- `len(instr)` (`__len__`): the encoded size. -/
def instrEncLen : Instr → Nat
  | .copyInstr length _ =>
    if length < 16 then 1 else if length < 4096 then 2
    else if length < 1048576 then 3 else 5
  | .writeInstr data =>
    (if data.length < 16 then 1 else if data.length < 4096 then 2
     else if data.length < 1048576 then 3 else 5) + data.length
  | .writeCachedInstr _ _ => 1
  | .setAddrInstr old new =>
    let shift : Int := new - old
    if -128 ≤ shift ∧ shift ≤ 127 then 2
    else if -32768 ≤ shift ∧ shift ≤ 32767 then 3
    else 5
  | .patchInstr operations =>
    2 + (operations.map (fun op =>
      match op with
      | .copyInstr _ _ => 1
      | .writeInstr data => (if data.length > 1 then 1 else 0) + data.length
      | _ => 0)).sum

/-- Signed value of a little-endian two's-complement byte string. -/
def int_from_bytes_signed (b : Bytes) : Int :=
  let u := int_from_bytes_le b
  if u < 256 ^ b.length / 2 then (u : Int) else (u : Int) - 256 ^ b.length

/-- `Instr.from_bytes` with the per-class `from_bytes` readers: returns the
instruction, its encoded length, and the updated original-offset cursor. -/
def instr_from_bytes (b : Bytes) (write_cache : List Bytes) (offset : Nat)
    (original_offset : Int) : Except PyErr (Instr × Nat × Int) :=
  if offset < b.length then
    let byte := b.getD offset 0
    let op := byte &&& 0xF0
    if op = 0x00 ∨ op = 0x10 ∨ op = 0x20 ∨ op = 0x30 then
      -- CopyInstr.from_bytes
      match
        (if op = 0x00 then
          if b.length < offset + 1 then .error .valueError
          else .ok (byte &&& 0x0F, 1)
        else if op = 0x10 then
          if b.length < offset + 2 then .error .valueError
          else .ok (((byte &&& 0x0F) <<< 8) ||| b.getD (offset + 1) 0, 2)
        else if op = 0x20 then
          if b.length < offset + 3 then .error .valueError
          else .ok (((byte &&& 0x0F) <<< 16) |||
            int_from_bytes_le ((b.drop (offset + 1)).take 2), 3)
        else
          if b.length < offset + 5 then .error .valueError
          else .ok (int_from_bytes_le ((b.drop (offset + 1)).take 4), 5)
          : Except PyErr (Nat × Nat)) with
      | .error e => .error e
      | .ok (length, size) =>
        match mkCopy length (-1) with
        | .error e => .error e
        | .ok c => .ok (c, size, original_offset + length)
    else if op = 0x40 ∨ op = 0x50 ∨ op = 0x60 ∨ op = 0x70 then
      -- WriteInstr.from_bytes
      match
        (if op = 0x40 then
          if b.length < offset + 1 then .error .valueError
          else .ok (byte &&& 0x0F, 1)
        else if op = 0x50 then
          if b.length < offset + 2 then .error .valueError
          else .ok (((byte &&& 0x0F) <<< 8) ||| b.getD (offset + 1) 0, 2)
        else if op = 0x60 then
          if b.length < offset + 3 then .error .valueError
          else .ok (((byte &&& 0x0F) <<< 16) |||
            int_from_bytes_le ((b.drop (offset + 1)).take 2), 3)
        else
          if b.length < offset + 5 then .error .valueError
          else .ok (int_from_bytes_le ((b.drop (offset + 1)).take 4), 5)
          : Except PyErr (Nat × Nat)) with
      | .error e => .error e
      | .ok (length, hdr_len) =>
        -- data = b[offset+hdr_len : offset+hdr_len+length] (a Python slice
        -- clamps at the end of the buffer)
        match mkWrite ((b.drop (offset + hdr_len)).take length) with
        | .error e => .error e
        | .ok w => .ok (w, hdr_len + length, original_offset + length)
    else if op = 0x80 then
      -- WriteCachedInstr.from_bytes
      if b.length < offset + 1 then .error .valueError
      else
        let idx := byte &&& 0x0F
        match write_cache.get? idx with
        | none => .error .indexError
        | some entry =>
          .ok (.writeCachedInstr idx entry.length, 1, original_offset + entry.length)
    else if op = 0x90 ∨ op = 0xA0 ∨ op = 0xB0 then
      -- SetAddrInstr.from_bytes dispatches on the full opcode byte
      if byte = 0x90 then
        if b.length < offset + 2 then .error .valueError
        else
          let val := int_from_bytes_signed ((b.drop (offset + 1)).take 1)
          .ok (.setAddrInstr original_offset (original_offset + val), 2,
            original_offset + val)
      else if byte = 0xA0 then
        if b.length < offset + 3 then .error .valueError
        else
          let val := int_from_bytes_signed ((b.drop (offset + 1)).take 2)
          .ok (.setAddrInstr original_offset (original_offset + val), 3,
            original_offset + val)
      else if byte = 0xB0 then
        if b.length < offset + 5 then .error .valueError
        else
          let val : Int := int_from_bytes_le ((b.drop (offset + 1)).take 4)
          .ok (.setAddrInstr original_offset val, 5, val)
      else .error .runtimeError
    else if op = 0xC0 then
      -- PatchInstr.from_bytes: assert the exact opcode byte, then read
      -- [copy_len][optional write_len][write bytes] pairs to a zero byte.
      if byte = 0xC0 then
        match patch_ops_from_bytes b (offset + 1) original_offset b.length [] with
        | .error e => .error e
        | .ok (ops, stop, oo) => .ok (.patchInstr ops, stop - offset, oo)
      else .error .assertionError
    else .error .notImplementedError
  else .error .indexError
where
  /-- The `while True` loop of `PatchInstr.from_bytes`; `pos` is
  `offset + length` in the source, the returned `Nat` is the position one
  past the terminator. -/
  patch_ops_from_bytes (b : Bytes) (pos : Nat) (original_offset : Int) :
      Nat → List Instr → Except PyErr (List Instr × Nat × Int)
    | 0, _ => .error .fuelExhausted
    | fuel + 1, acc =>
      if pos < b.length then
        let copy_len := b.getD pos 0
        if copy_len = 0 then .ok (acc.reverse, pos + 1, original_offset)
        else
          let actual_copy_len := copy_len &&& 0x7F
          match mkCopy actual_copy_len (-1) with
          | .error e => .error e
          | .ok c =>
            let original_offset := original_offset + actual_copy_len
            if copy_len &&& 0x80 ≠ 0 then
              -- a single write byte follows with no length byte
              match mkWrite ((b.drop (pos + 1)).take 1) with
              | .error e => .error e
              | .ok w =>
                patch_ops_from_bytes b (pos + 2) (original_offset + 1) fuel
                  (w :: c :: acc)
            else
              if pos + 1 < b.length then
                let write_len := b.getD (pos + 1) 0
                if write_len = 0 then .ok ((c :: acc).reverse, pos + 2, original_offset)
                else
                  match mkWrite ((b.drop (pos + 2)).take write_len) with
                  | .error e => .error e
                  | .ok w =>
                    patch_ops_from_bytes b (pos + 2 + write_len)
                      (original_offset + write_len) fuel (w :: c :: acc)
              else .error .indexError
          else .error .indexError

/-- `diff.PatchHeader.magic_value`. -/
def diff.magic_value : Nat := 0xBA854092

/-- `diff.PatchHeader.cache_size`. -/
def diff.cache_size : Nat := 128

/-- The `(length, crc)` metadata triple of `_patch_load` /
`_gen_patch_instr`. -/
structure PatchMeta where
  original_len : Nat
  original_crc : Nat
  new_len : Nat
  new_crc : Nat
  patch_len : Nat
  patch_crc : Nat
  deriving DecidableEq, Repr

/-- The write-cache parsing loop of `_patch_load`
(`while len(cache_bin) and cache_bin[0] != 0`). -/
def parse_write_cache : Nat → Bytes → List Bytes
  | 0, _ => []
  | _ + 1, [] => []
  | fuel + 1, l0 :: rest =>
    if l0 = 0 then []
    else (rest.take l0) :: parse_write_cache fuel (rest.drop l0)

/-- The instruction-parsing loop of `_patch_load`
(`while patch_offset < len(data)`). -/
def parse_instructions (data : Bytes) (cache : List Bytes) :
    Nat → Nat → Int → List Instr → Except PyErr (List Instr)
  | 0, patch_offset, _, acc =>
    if patch_offset < data.length then .error .fuelExhausted else .ok acc.reverse
  | fuel + 1, patch_offset, original_offset, acc =>
    if patch_offset < data.length then
      match instr_from_bytes data cache patch_offset original_offset with
      | .error e => .error e
      | .ok (instr, length, original_offset) =>
        parse_instructions data cache fuel (patch_offset + length) original_offset
          (instr :: acc)
    else .ok acc.reverse

/-- `diff._patch_load`.  Note: the stored `magic` field is read into the
header but never compared against `magic_value`. -/
def diff._patch_load (patch_binary : Bytes) :
    Except PyErr (PatchMeta × List Bytes × List Instr) :=
  if patch_binary.length < 160 then .error .valueError
  else
    let meta : PatchMeta :=
      { original_len := int_from_bytes_le ((patch_binary.drop 4).take 4)
        original_crc := int_from_bytes_le ((patch_binary.drop 8).take 4)
        new_len := int_from_bytes_le ((patch_binary.drop 12).take 4)
        new_crc := int_from_bytes_le ((patch_binary.drop 16).take 4)
        patch_len := int_from_bytes_le ((patch_binary.drop 20).take 4)
        patch_crc := int_from_bytes_le ((patch_binary.drop 24).take 4) }
    let header_crc_stored := int_from_bytes_le ((patch_binary.drop 156).take 4)
    let data := patch_binary.drop 160
    if crc32 (patch_binary.take 156) ≠ header_crc_stored then
      .error .validationError
    else if data.length ≠ meta.patch_len then .error .validationError
    else if crc32 data ≠ meta.patch_crc then .error .validationError
    else
      let cache := parse_write_cache 129 ((patch_binary.drop 28).take 128)
      match parse_instructions data cache (data.length + 1) 0 0 [] with
      | .error e => .error e
      | .ok instructions => .ok (meta, cache, instructions)

/-- One `PATCH`-macro operation of the apply loop. -/
def apply_patch_op (bin_original : Bytes) (st : Bytes × Int) (op : Instr) :
    Except PyErr (Bytes × Int) :=
  match op with
  | .copyInstr length _ =>
    .ok (st.1 ++ pySlice bin_original st.2 (st.2 + length), st.2 + length)
  | .writeInstr data => .ok (st.1 ++ data, st.2 + data.length)
  | _ => .error .assertionError

/-- One instruction of the apply loop of `diff.patch`. -/
def apply_instr (bin_original : Bytes) (cache : List Bytes) (st : Bytes × Int)
    (instr : Instr) : Except PyErr (Bytes × Int) :=
  match instr with
  | .copyInstr length _ =>
    .ok (st.1 ++ pySlice bin_original st.2 (st.2 + length), st.2 + length)
  | .writeInstr data => .ok (st.1 ++ data, st.2 + data.length)
  | .writeCachedInstr idx _ =>
    match cache.get? idx with
    | none => .error .indexError
    | some entry => .ok (st.1 ++ entry, st.2 + entry.length)
  | .setAddrInstr _ new => .ok (st.1, new)
  | .patchInstr operations =>
    operations.foldlM (apply_patch_op bin_original) st

/-- `diff.patch`: load and validate the patch, execute the instruction
stream against the original, validate the constructed output. -/
def diff.patch (bin_original bin_patch : Bytes) : Except PyErr Bytes :=
  match diff._patch_load bin_patch with
  | .error e => .error e
  | .ok (meta, cache, instructions) =>
    if bin_original.length ≠ meta.original_len then .error .validationError
    else if crc32 bin_original ≠ meta.original_crc then .error .validationError
    else
      match instructions.foldlM (apply_instr bin_original cache) (([] : Bytes), (0 : Int)) with
      | .error e => .error e
      | .ok (patched, _) =>
        if patched.length ≠ meta.new_len then .error .validationError
        else if crc32 patched ≠ meta.new_crc then .error .validationError
        else .ok patched

/-- Append a value to the end of a bucket (or start a new bucket), in
dictionary insertion order (`pre_hash[val].append(offset)`). -/
def alist_push {α : Type} [DecidableEq α] : List (α × List Nat) → α → Nat →
    List (α × List Nat)
  | [], key, off => [(key, [off])]
  | (k, v) :: rest, key, off =>
    if k = key then (k, v ++ [off]) :: rest
    else (k, v) :: alist_push rest key off

/-- The pre-hash table of `_naive_diff`: every `hash_len`-gram of `old`
mapped to its offsets, consecutive duplicate grams collapsed. -/
def preHash (old : Bytes) (hash_len : Nat) : List (Bytes × List Nat) :=
  ((List.range (old.length - hash_len)).foldl
    (fun (acc : List (Bytes × List Nat) × Option Bytes) offset =>
      let val := (old.drop offset).take hash_len
      match acc.2 with
      | some pv =>
        if val = pv then acc else (alist_push acc.1 val offset, some val)
      | none => (alist_push acc.1 val offset, some val))
    ([], none)).1

/-- The byte-by-byte match-extension loop of `_naive_diff`
(`while new[no+m] == old[oo+m]: m += 1`). -/
def matchLenF (newB old : Bytes) : Nat → Nat → Nat → Nat
  | 0, _, _ => 0
  | fuel + 1, no, oo =>
    if no < newB.length ∧ oo < old.length ∧ newB.getD no 0 = old.getD oo 0 then
      1 + matchLenF newB old fuel (no + 1) (oo + 1)
    else 0

/-- `matchLen` on the sufficient fuel `newB.length - no`: the loop guard
requires `no < newB.length` and advances `no` each iteration. -/
def matchLen (newB old : Bytes) (no oo : Nat) : Nat :=
  matchLenF newB old (newB.length - no) no oo

/-- The candidate scan of `_naive_diff`: fold the bucket keeping the best
`(max_match, max_offset)` under the `+8`-better rule. -/
def bestMatch (newB old : Bytes) (new_offset : Nat) (old_match : Int)
    (bucket : List Nat) (init : Int × Nat) : Int × Nat :=
  bucket.foldl
    (fun (mm : Int × Nat) orig_offset =>
      let this_match : Int := matchLen newB old new_offset orig_offset
      if this_match > mm.1 ∧ this_match > old_match + 8 then
        (this_match, orig_offset)
      else mm)
    init

/-- The main loop of `_naive_diff`, on explicit fuel (each iteration
advances `new_offset` by at least one in every reachable state). -/
def naive_diff_loop (old newB : Bytes) (hash_len : Nat)
    (pre_hash : List (Bytes × List Nat)) :
    Nat → Nat → Nat → Nat → Nat → List Instr → Except PyErr (List Instr)
  | 0, new_offset, _, write_start, write_pending, acc =>
    if new_offset < newB.length then .error .fuelExhausted
    else if write_pending ≠ 0 then
      match mkWrite ((newB.drop write_start).take write_pending) with
      | .error e => .error e
      | .ok w => .ok (acc ++ [w])
    else .ok acc
  | fuel + 1, new_offset, old_offset, write_start, write_pending, acc =>
    if new_offset < newB.length then
      let val := (newB.drop new_offset).take hash_len
      match alist_get pre_hash val with
      | some bucket =>
        -- flush any pending write
        match
          (if write_pending ≠ 0 then
            match mkWrite ((newB.drop write_start).take write_pending) with
            | .error e => .error e
            | .ok w => .ok (acc ++ [w])
          else .ok acc : Except PyErr (List Instr)) with
        | .error e => .error e
        | .ok acc =>
          let old_match : Int :=
            if bucket.contains old_offset then matchLen newB old new_offset old_offset
            else -100
          let best := bestMatch newB old new_offset old_match bucket
            (old_match, old_offset)
          let max_match := best.1
          let max_offset := best.2
          let acc :=
            if max_offset ≠ old_offset then
              acc ++ [.setAddrInstr old_offset max_offset]
            else acc
          -- CopyInstr(max_match, max_offset); a non-positive max_match
          -- cannot occur (pre-hash buckets are nonempty, so a candidate
          -- match of at least hash_len wins); it would make the Python
          -- loop run forever, which the fuel models.
          if max_match ≤ 0 then .error .fuelExhausted
          else
            match mkCopy max_match.toNat max_offset with
            | .error e => .error e
            | .ok c =>
              naive_diff_loop old newB hash_len pre_hash fuel
                (new_offset + max_match.toNat) (max_offset + max_match.toNat)
                write_start 0 (acc ++ [c])
      | none =>
        let write_start := if write_pending = 0 then new_offset else write_start
        naive_diff_loop old newB hash_len pre_hash fuel
          (new_offset + 1) (old_offset + 1) write_start (write_pending + 1) acc
    else
      if write_pending ≠ 0 then
        match mkWrite ((newB.drop write_start).take write_pending) with
        | .error e => .error e
        | .ok w => .ok (acc ++ [w])
      else .ok acc

/-- `diff._naive_diff`. -/
def diff._naive_diff (old newB : Bytes) (hash_len : Nat) :
    Except PyErr (List Instr) :=
  naive_diff_loop old newB hash_len (preHash old hash_len)
    (newB.length + 1) 0 0 0 0 []

/-- The replacement loop of `_cleanup_jumps`: collapse
`ADDR, COPY, ADDR` (and `ADDR, COPY, WRITE, ADDR`) pairs with opposite
shifts into a single write of the original bytes. -/
def cleanup_jumps_loop (old : Bytes) : Nat → List Instr → Except PyErr (List Instr)
  | 0, _ => .error .fuelExhausted
  | _ + 1, [] => .ok []
  | _ + 1, .setAddrInstr _ _ :: [] => .error .indexError
  | fuel + 1, .setAddrInstr o n ::
      rest@(.copyInstr clen _ :: .setAddrInstr o2 n2 :: rest3) =>
    if (n - o) = -(n2 - o2) then
      match mkWrite (pySlice old n (n + clen)) with
      | .error e => .error e
      | .ok w =>
        match cleanup_jumps_loop old fuel rest3 with
        | .error e => .error e
        | .ok tail => .ok (w :: tail)
    else
      match cleanup_jumps_loop old fuel rest with
      | .error e => .error e
      | .ok tail => .ok (.setAddrInstr o n :: tail)
  | fuel + 1, .setAddrInstr o n ::
      rest@(.copyInstr clen _ :: .writeInstr wdata :: .setAddrInstr o2 n2 :: rest4) =>
    if (n - o) = -(n2 - o2) then
      match mkWrite (pySlice old n (n + clen) ++ wdata) with
      | .error e => .error e
      | .ok w =>
        match cleanup_jumps_loop old fuel rest4 with
        | .error e => .error e
        | .ok tail => .ok (w :: tail)
    else
      match cleanup_jumps_loop old fuel rest with
      | .error e => .error e
      | .ok tail => .ok (.setAddrInstr o n :: tail)
  | fuel + 1, .setAddrInstr o n :: rest@(.copyInstr _ _ :: _) =>
    match cleanup_jumps_loop old fuel rest with
    | .error e => .error e
    | .ok tail => .ok (.setAddrInstr o n :: tail)
  | _ + 1, .setAddrInstr _ _ :: _ :: _ => .error .assertionError
  | fuel + 1, instr :: rest =>
    match cleanup_jumps_loop old fuel rest with
    | .error e => .error e
    | .ok tail => .ok (instr :: tail)

/-- The merge pass of `_cleanup_jumps`: fuse consecutive writes. -/
def merge_adjacent_writes : List Instr → List Instr → List Instr
  | cleaned, [] => cleaned.reverse
  | cleaned, instr :: rest =>
    match instr, cleaned with
    | .writeInstr d2, (.writeInstr d1) :: ctail =>
      merge_adjacent_writes (.writeInstr (d1 ++ d2) :: ctail) rest
    | _, _ => merge_adjacent_writes (instr :: cleaned) rest

/-- `diff._cleanup_jumps` (`cleaned = [merged[0]]` raises `IndexError` on an
empty instruction list). -/
def diff._cleanup_jumps (old : Bytes) (instructions : List Instr) :
    Except PyErr (List Instr) :=
  match cleanup_jumps_loop old (instructions.length + 1) instructions with
  | .error e => .error e
  | .ok merged =>
    match merged with
    | [] => .error .indexError
    | m0 :: mrest => .ok (merge_adjacent_writes [m0] mrest)

/-- `defaultdict(int)` increment keyed by write payload, in insertion
order. -/
def alist_incr : List (Bytes × Nat) → Bytes → List (Bytes × Nat)
  | [], key => [(key, 1)]
  | (k, c) :: rest, key =>
    if k = key then (k, c + 1) :: rest else (k, c) :: alist_incr rest key

/-- The write-payload occurrence counts of `_common_writes` (payloads of
fewer than 8 bytes are skipped). -/
def writeChunks (instructions : List Instr) : List (Bytes × Nat) :=
  instructions.foldl
    (fun acc instr =>
      match instr with
      | .writeInstr data => if data.length < 8 then acc else alist_incr acc data
      | _ => acc)
    []

/-- Stable descending insertion by saving (Python's stable
`sorted(..., reverse=True)`). -/
def insertBySavingDesc (x : Bytes × Nat) : List (Bytes × Nat) → List (Bytes × Nat)
  | [] => [x]
  | y :: rest =>
    if x.2 < y.2 then y :: insertBySavingDesc x rest else x :: y :: rest

/-- `sorted(common.items(), key=savings, reverse=True)` (stable). -/
def sortBySavingDesc (l : List (Bytes × Nat)) : List (Bytes × Nat) :=
  l.foldr insertBySavingDesc []

/-- The cache-allocation loop of `_common_writes` (`break` once more than
16 entries are cached, skip entries that would overflow the 128-byte
region). -/
def selectCached : List (Bytes × Nat) → List Bytes → Nat → List Bytes
  | [], cached, _ => cached
  | (write_bytes, _) :: rest, cached, allocated =>
    if cached.length > 16 then cached
    else if 1 + write_bytes.length + allocated > diff.cache_size then
      selectCached rest cached allocated
    else
      selectCached rest (cached ++ [write_bytes]) (allocated + 1 + write_bytes.length)

/-- `diff._common_writes`: pick the write payloads worth caching and replace
their occurrences with `WriteCachedInstr`. -/
def diff._common_writes (instructions : List Instr) : List Bytes × List Instr :=
  let common := (writeChunks instructions).filterMap
    (fun vc => if vc.2 > 2 then some (vc.1, (vc.2 - 1) * vc.1.length) else none)
  let by_savings := sortBySavingDesc common
  let cached := selectCached by_savings [] 0
  let out_instr := instructions.map
    (fun instr =>
      match instr with
      | .writeInstr data =>
        if cached.contains data then
          .writeCachedInstr (cached.indexOf data) data.length
        else instr
      | _ => instr)
  (cached, out_instr)

/-- `finalise()` of `_merge_operations`: an empty buffer adds nothing, a
single instruction is emitted as itself, two or more become a `PATCH`. -/
def mergeFinalise (to_merge : List Instr) : List Instr :=
  match to_merge with
  | [] => []
  | [op] => [op]
  | ops => [.patchInstr ops]

/-- `diff._merge_operations`: collect runs of small copies and writes into
`PATCH` macros. -/
def diff._merge_operations (instructions : List Instr) : List Instr :=
  let step := instructions.foldl
    (fun (st : List Instr × List Instr) instr =>
      let merged := st.1
      let to_merge := st.2
      match instr with
      | .copyInstr length _ =>
        if length < 128 then (merged, to_merge ++ [instr])
        else (merged ++ mergeFinalise to_merge ++ [instr], [])
      | .writeInstr data =>
        if to_merge.length > 0 ∧ data.length < 256 then
          (merged, to_merge ++ [instr])
        else (merged ++ mergeFinalise to_merge ++ [instr], [])
      | _ => (merged ++ mergeFinalise to_merge ++ [instr], []))
    ([], [])
  step.1 ++ mergeFinalise step.2

/-- The split-construction loop of `_merge_crack`: walk the write data and
record alternating write/copy run lengths against the bytes of `old` at the
implied cursor (indexing `old` out of range raises `IndexError`). -/
def buildSplit (old : Bytes) (old_offset : Int) :
    Bytes → Nat → List Nat → Except PyErr (List Nat)
  | [], _, split => .ok split
  | b :: rest, idx, split =>
    match pyGet old (old_offset + idx) with
    | .error e => .error e
    | .ok ob =>
      let split2 :=
        if ob ≠ b then
          if split.length % 2 = 1 then
            split.dropLast ++ [split.getLastD 0 + 1]
          else split ++ [1]
        else
          if split.length % 2 = 1 then split ++ [1]
          else split.dropLast ++ [split.getLastD 0 + 1]
      buildSplit old old_offset rest (idx + 1) split2

/-- The `[WRITE, COPY]*` pair-emission loop of `_merge_crack`; a 1-byte
copy is rolled back into the following write run. -/
def emitPairs (data : Bytes) (old_offset : Int) :
    Nat → List Nat → Nat → Except PyErr (List Instr)
  | 0, _, _ => .error .fuelExhausted
  | _ + 1, [], _ => .ok []
  | _ + 1, [write_len], offset =>
    match mkWrite ((data.drop offset).take write_len) with
    | .error e => .error e
    | .ok w => .ok [w]
  | fuel + 1, write_len :: copy_len :: restSplit, offset =>
    if copy_len = 1 then
      match restSplit with
      | [] => .error .indexError
      | s0 :: stail =>
        emitPairs data old_offset fuel ((s0 + write_len + copy_len) :: stail) offset
    else
      match mkWrite ((data.drop offset).take write_len) with
      | .error e => .error e
      | .ok w =>
        match mkCopy copy_len (old_offset + (offset + write_len)) with
        | .error e => .error e
        | .ok c =>
          match emitPairs data old_offset fuel restSplit (offset + write_len + copy_len) with
          | .error e => .error e
          | .ok tail => .ok (w :: c :: tail)

/-- The per-`PATCH` operation rewriting of `_merge_crack` (on fuel: each
iteration consumes two operations and only ever rewrites the head of the
remainder). -/
def crack_ops (old : Bytes) : Nat → List Instr → Except PyErr (List Instr)
  | 0, l => if l.isEmpty then .ok [] else .error .fuelExhausted
  | _ + 1, [] => .ok []
  | _ + 1, [x] => .ok [x]
  | fuel + 1, copy_op :: write_op :: rest =>
    match copy_op with
    | .copyInstr clen coff =>
      match write_op with
      | .writeInstr data =>
        if coff = -1 then .error .assertionError
        else
          let old_offset : Int := coff + clen
          if data.length < 4 then
            -- too small to crack
            match crack_ops old fuel rest with
            | .error e => .error e
            | .ok tail => .ok (copy_op :: write_op :: tail)
          else
            match buildSplit old old_offset data 0 [0] with
            | .error e => .error e
            | .ok split =>
              if split.sum ≠ data.length then .error .assertionError
              else
                -- on an even split the trailing copy run is pushed into the
                -- next instruction (which must be a copy) or merged back
                match (if split.length % 2 = 0 then
                    match rest with
                    | [] =>
                      .ok (split.dropLast.dropLast ++
                        [split.dropLast.getLastD 0 + split.getLastD 0], rest)
                    | r0 :: rrest =>
                      match r0 with
                      | .copyInstr l o =>
                        .ok (split.dropLast,
                          (.copyInstr (l + split.getLastD 0)
                            (o - split.getLastD 0) : Instr) :: rrest)
                      | _ => .error .assertionError
                  else .ok (split, rest) : Except PyErr (List Nat × List Instr)) with
                | .error e => .error e
                | .ok (split2, rest2) =>
                  if split2.length % 2 ≠ 1 then .error .assertionError
                  else
                    match emitPairs data old_offset (split2.length + 1) split2 0 with
                    | .error e => .error e
                    | .ok emitted =>
                      match crack_ops old fuel rest2 with
                      | .error e => .error e
                      | .ok tail => .ok (copy_op :: emitted ++ tail)
      | _ => .error .assertionError
    | _ => .error .assertionError

/-- `diff._merge_crack`: crack the writes inside every `PATCH` macro. -/
def diff._merge_crack (old : Bytes) : List Instr → Except PyErr (List Instr)
  | [] => .ok []
  | instr :: rest =>
    match instr with
    | .patchInstr ops =>
      match crack_ops old (ops.length + 1) ops with
      | .error e => .error e
      | .ok ops2 =>
        match diff._merge_crack old rest with
        | .error e => .error e
        | .ok tail => .ok (.patchInstr ops2 :: tail)
    | _ =>
      match diff._merge_crack old rest with
      | .error e => .error e
      | .ok tail => .ok (instr :: tail)

/-- One candidate pipeline run of `_gen_patch_instr` for a given
`hash_len`. -/
def gen_candidate (bin_orig bin_new : Bytes) (hash_len : Nat) :
    Except PyErr (List Bytes × List Instr) :=
  match diff._naive_diff bin_orig bin_new hash_len with
  | .error e => .error e
  | .ok instr =>
    match diff._cleanup_jumps bin_orig instr with
    | .error e => .error e
    | .ok instr =>
      let cw := diff._common_writes instr
      let instr := diff._merge_operations cw.2
      match diff._merge_crack bin_orig instr with
      | .error e => .error e
      | .ok instr => .ok (cw.1, instr)

/-- One best-candidate update step of `_gen_patch_instr`. -/
def gen_fold_step (bin_orig bin_new : Bytes)
    (best : Option (List Instr) × Option (List Bytes) × Nat) (i : Nat) :
    Except PyErr (Option (List Instr) × Option (List Bytes) × Nat) :=
  match gen_candidate bin_orig bin_new i with
  | .error e => .error e
  | .ok (write_cache, instr) =>
    let patch_len := (instr.map instrEncLen).sum
    if patch_len < best.2.2 then .ok (some instr, some write_cache, patch_len)
    else .ok best

/-- `diff._gen_patch_instr`: try `hash_len` 4..7 and keep the shortest
encoding. -/
def diff._gen_patch_instr (bin_orig bin_new : Bytes) :
    Except PyErr (PatchMeta × Option (List Bytes) × Option (List Instr)) :=
  match [4, 5, 6, 7].foldlM (gen_fold_step bin_orig bin_new) (none, none, 2 ^ 32) with
  | .error e => .error e
  | .ok (best_patch, best_write_cache, _) =>
    .ok
      ({ original_len := bin_orig.length
         original_crc := crc32 bin_orig
         new_len := bin_new.length
         new_crc := crc32 bin_new
         patch_len := 0
         patch_crc := 0 },
        best_write_cache, best_patch)

/-- `diff._gen_patch_data`: concatenate the instruction encodings. -/
def diff._gen_patch_data : List Instr → Except PyErr Bytes
  | [] => .ok []
  | instr :: rest =>
    match instrBytes instr with
    | .error e => .error e
    | .ok b =>
      match diff._gen_patch_data rest with
      | .error e => .error e
      | .ok tail => .ok (b ++ tail)

/-- The write-cache region encoder of `_gen_patch_header` (each entry is
`[len][bytes]`; `int.to_bytes(1)` raises `OverflowError` above 255). -/
def encode_cache_entries : List Bytes → Except PyErr Bytes
  | [] => .ok []
  | entry :: rest =>
    match int_to_bytes_le entry.length 1 with
    | .error e => .error e
    | .ok lb =>
      match encode_cache_entries rest with
      | .error e => .error e
      | .ok tail => .ok (lb ++ entry ++ tail)

/-- `diff._gen_patch_header`: magic, three `(length, crc)` pairs, the
128-byte zero-padded write-cache region, and a CRC over the preceding 156
bytes. -/
def diff._gen_patch_header (meta : PatchMeta) (write_cache : List Bytes)
    (patch_data : Bytes) : Except PyErr Bytes :=
  match encode_cache_entries write_cache with
  | .error e => .error e
  | .ok cache_bin =>
    let padded := cache_bin ++ List.replicate (diff.cache_size - cache_bin.length) 0
    if padded.length ≠ diff.cache_size then .error .assertionError
    else
      let body := nat_le_bytes 4 diff.magic_value ++
        nat_le_bytes 4 meta.original_len ++ nat_le_bytes 4 meta.original_crc ++
        nat_le_bytes 4 meta.new_len ++ nat_le_bytes 4 meta.new_crc ++
        nat_le_bytes 4 patch_data.length ++ nat_le_bytes 4 (crc32 patch_data) ++
        padded
      .ok (body ++ nat_le_bytes 4 (crc32 body))

/-- `diff.generate`: build the best candidate patch, then self-check by
applying it (`assert bin_new == patched`). -/
def diff.generate (bin_original bin_new : Bytes) : Except PyErr Bytes :=
  match diff._gen_patch_instr bin_original bin_new with
  | .error e => .error e
  | .ok (meta, cacheO, instrO) =>
    match instrO, cacheO with
    | some instructions, some cache =>
      match diff._gen_patch_data instructions with
      | .error e => .error e
      | .ok patch_data =>
        match diff._gen_patch_header meta cache patch_data with
        | .error e => .error e
        | .ok patch_header =>
          let bin_patch := patch_header ++ patch_data
          -- ratio = 100 * len(bin_patch) / meta["new"]["len"]
          if meta.new_len = 0 then .error .zeroDivisionError
          else
            match diff.patch bin_original bin_patch with
            | .error e => .error e
            | .ok patched =>
              if bin_new = patched then .ok bin_patch
              else .error .assertionError
    | _, _ =>
      -- best_patch is None: _gen_patch_data iterates None (TypeError)
      .error .typeError

/-! ## Concrete fixtures used by witness theorems -/

/-- Fixture device record for the C7 witness. -/
def c7st : DeviceState :=
  { infuse_id := 5
    network_id := some 2
    device_key_id := some 7
    bt_addr := none
    device_public_key := none
    shared_key := none
    tx_gatt_seq := 0 }

/-- Fixture database for the C7 witness. -/
def c7db : DeviceDatabase :=
  { gateway := some 1
    devices := [(5, c7st)]
    bt_addr := []
    network_keys := []
    derived_keys := [] }

/-- Fixture HKDF stand-in for the C6 witness (records its arguments). -/
def c6hkdf : Nat → Bytes → Bytes → Bytes → Bytes :=
  fun length ikm salt info => length :: (ikm ++ salt ++ info)

/-- Fixture credential store for the C6 witness. -/
def c6ln : Nat → Option Bytes := fun _ => none

/-- Fixture database for the C6 witness: device 5 on network 2 with a shared
secret, network 2 root cached. -/
def c6db : DeviceDatabase :=
  { gateway := some 1
    devices := [(5,
      { infuse_id := 5
        network_id := some 2
        device_key_id := some 7
        bt_addr := none
        device_public_key := none
        shared_key := some [9]
        tx_gatt_seq := 0 })]
    bt_addr := []
    network_keys := [(2, [8])]
    derived_keys := [] }

/-- The C6 witness network-key derivation run. -/
def c6net_run : Except PyErr (DeviceDatabase × Bytes) :=
  DeviceDatabase._network_key c6hkdf c6ln c6db 2 (strBytes "serial") 100000

/-- Database state after the C6 witness network-key run. -/
def c6db2 : DeviceDatabase :=
  match c6net_run with
  | .ok (d, _) => d
  | .error _ => DeviceDatabase.init

/-- Key returned by the C6 witness network-key run. -/
def c6net_k : Bytes :=
  match c6net_run with
  | .ok (_, k) => k
  | .error _ => []

/-- Key returned by the C6 witness device-key run. -/
def c6dev_k : Bytes :=
  match DeviceDatabase._get_device_key c6hkdf c6db 5 (strBytes "serial") 100000 with
  | .ok k => k
  | .error _ => []

/-- Identity stand-in for the external AEAD encryptor in fixtures. -/
def encId : Bytes → Bytes → Bytes → Bytes → Bytes := fun _ _ _ p => p

/-- Always-succeeding stand-in for the external AEAD decryptor in fixtures. -/
def decOk : Bytes → Bytes → Bytes → Bytes → Except PyErr Bytes := fun _ _ _ c => .ok c

/-- Fixture device record for the C1 evaluation: all key material present. -/
def c1st : DeviceState :=
  { infuse_id := 5
    network_id := some 3
    device_key_id := some 7
    bt_addr := none
    device_public_key := none
    shared_key := some (List.replicate 32 1)
    tx_gatt_seq := 0 }

/-- Fixture database for the C1 evaluation. -/
def c1db : DeviceDatabase :=
  { gateway := some 1
    devices := [(5, c1st)]
    bt_addr := []
    network_keys := [(3, [1, 2])]
    derived_keys := [] }

/-- Fixture DEVICE-auth single-hop packet for the C1 evaluation. -/
def c1pkt : PacketOutput :=
  { route := [{ infuse_id := 5, interface := .SERIAL, auth := .DEVICE }]
    ptype := .ECHO_REQ
    payload := [1, 2, 3] }

/-- Fixture serial frame with the ENCR_DEVICE flag set
(header bytes 2-3 hold flags `0x8000` little-endian). -/
def c1devframe : Bytes := [0, 0, 0, 0x80] ++ List.replicate 19 0

/-- Fixture plaintext BT_ADV entry for the C8 witness: origin device 9,
rssi byte 70, TDF inner type. -/
def c8entry : ContainedEntry :=
  { encrypted := false
    rssiByte := 70
    ifByte := 2
    addrType := 1
    addrBytes := [1, 2, 3, 4, 5, 6]
    frame := [9, 0, 0, 0, 0, 0, 0, 0,  0, 0, 0, 0,  2,  0, 0,  0, 0,  0, 0, 0] }

/-- Fixture payload function for the C8 witness AEAD stand-in. -/
def c8g : Bytes → Bytes := fun _ => entriesBytes [c8entry]

/-- Fixture AEAD decryptor for the C8 witness: always yields the container
payload. -/
def decC8 : Bytes → Bytes → Bytes → Bytes → Except PyErr Bytes :=
  fun _ _ _ _ => .ok (entriesBytes [c8entry])

/-- Fixture credential store for the C8 witness: every network known. -/
def c8ln : Nat → Option Bytes := fun _ => some [1]

/-- Fixture outer serial frame for the C8 witness: version 0, type 7
(RECEIVED_EPACKET), NETWORK flags. -/
def c8frame : Bytes := [0, 7] ++ List.replicate 21 0

/-- Fixture two-hop packet for the C9 witness. -/
def c9packet : PacketReceived :=
  { route := [{ infuse_id := 9, interface := .BT_ADV,
                interface_address := .bluetoothLeAddr 1 77, auth := .NETWORK,
                key_identifier := 3, gps_time := 4, sequence := 5, rssi := -70 },
              { infuse_id := 2, interface := .SERIAL,
                interface_address := .serialAddr, auth := .DEVICE,
                key_identifier := 8, gps_time := 6, sequence := 1, rssi := 0 }]
    ptype := .TDF
    payload := [1, 2, 3] }

/-- A bounded write cache: every entry has at least 8 data bytes and the
encoded `[len][bytes]` entries fit the 128-byte region. -/
def CacheBounded (cache : List Bytes) : Prop :=
  (∀ e ∈ cache, 8 ≤ e.length) ∧
  (cache.map (fun e => 1 + e.length)).sum ≤ 128

/-- Fixture original/new array for the C2 and C5 witnesses. -/
def c2orig : Bytes := [1, 2, 3, 4, 5, 6, 7, 8]

/-- Fixture wrong-magic patch for the C4 counterexample: a header of zeros
(magic 0) with a consistent header CRC, empty body, empty original. -/
def c4patch : Bytes :=
  List.replicate 156 0 ++ nat_le_bytes 4 (crc32 (List.replicate 156 0))

/-- Fixture original/new array for the C5 witness. -/
def c5orig : Bytes := [3, 1, 4, 1, 5, 9, 2, 6, 5, 3, 5]

-- DEFINITIONS-END (theorems follow)

/-- The only assignment to `gateway` in `observe_device` is guarded by
`self.gateway is None`: an already-set gateway is never changed. -/
theorem observe_device_gateway_preserved (db : DeviceDatabase) (infuse_id : Nat)
    (network_id device_key_id : Option Nat) (bt_addr : Option BtAddr) (g : Nat)
    (hg : db.gateway = some g) :
    ((db.observe_device infuse_id network_id device_key_id bt_addr).1).gateway = some g := by
  unfold DeviceDatabase.observe_device
  simp only [hg, Option.isNone_some, Bool.false_eq_true, if_false]
  repeat' (first | rfl | exact hg | split)

/-- On a database with no gateway yet, any `observe_device` call records the
observed `infuse_id` as the gateway. -/
theorem observe_device_gateway_first (db : DeviceDatabase) (infuse_id : Nat)
    (network_id device_key_id : Option Nat) (bt_addr : Option BtAddr)
    (hg : db.gateway = none) :
    ((db.observe_device infuse_id network_id device_key_id bt_addr).1).gateway
      = some infuse_id := by
  unfold DeviceDatabase.observe_device
  simp only [hg, Option.isNone_none, if_true]
  repeat' (first | rfl | split)

/-- The gateway-guard `if` of `observe_device` leaves `devices` untouched. -/
theorem gateway_if_devices (db : DeviceDatabase) (i : Nat) :
    (if db.gateway.isNone then { db with gateway := some i } else db).devices
      = db.devices := by
  split <;> rfl

/-- C7: once `device_key_id` is set for a record, `observe_device` with a
different `device_key_id` for the same `infuse_id` raises
`DeviceKeyChangedError` and leaves the stored record unchanged; a call with
the matching key id, or on a record whose key id is unset, does not raise. -/
theorem observe_device_key_changed (db : DeviceDatabase) (infuse_id : Nat)
    (st : DeviceState) (hdev : alist_get db.devices infuse_id = some st) :
    (∀ k dk, st.device_key_id = some k → k ≠ dk →
      (db.observe_device infuse_id none (some dk) none).2 = some PyErr.deviceKeyChanged ∧
      alist_get ((db.observe_device infuse_id none (some dk) none).1).devices infuse_id
        = some st) ∧
    (∀ k, st.device_key_id = some k →
      (db.observe_device infuse_id none (some k) none).2 = none) ∧
    (st.device_key_id = none → ∀ dk,
      (db.observe_device infuse_id none (some dk) none).2 = none) := by
  refine ⟨fun k dk hk hne => ?_, fun k hk => ?_, fun hk dk => ?_⟩ <;>
    cases hgw : db.gateway <;>
      simp_all [DeviceDatabase.observe_device]

/-- Once a gateway identity is recorded, no sequence of further
`observe_device` calls changes it. -/
theorem observe_seq_gateway_preserved (calls : List ObserveCall)
    (db : DeviceDatabase) (g : Nat) (hg : db.gateway = some g) :
    (db.observe_seq calls).gateway = some g := by
  induction calls generalizing db with
  | nil => simpa [DeviceDatabase.observe_seq] using hg
  | cons c rest ih =>
    simp only [DeviceDatabase.observe_seq]
    exact ih _ (observe_device_gateway_preserved db c.infuse_id c.network_id
      c.device_key_id c.bt_addr g hg)

/-- C10: starting from a database with no gateway recorded, the first
`observe_device` call sets `gateway` to the observed `infuse_id` and no
subsequent call in any sequence changes it. -/
theorem observe_seq_gateway_identity (db : DeviceDatabase) (hg : db.gateway = none)
    (c : ObserveCall) (rest : List ObserveCall) :
    (db.observe_seq (c :: rest)).gateway = some c.infuse_id := by
  simp only [DeviceDatabase.observe_seq]
  exact observe_seq_gateway_preserved rest _ _
    (observe_device_gateway_first db c.infuse_id c.network_id c.device_key_id c.bt_addr hg)

/-- C10 witness: a fresh database, one observation of id 3 then one of id 4;
the gateway stays 3. -/
theorem observe_seq_gateway_identity_witness :
    (DeviceDatabase.init.observe_seq
      [⟨3, none, none, none⟩, ⟨4, some 1, none, none⟩]).gateway = some 3 :=
  observe_seq_gateway_identity DeviceDatabase.init rfl ⟨3, none, none, none⟩
    [⟨4, some 1, none, none⟩]

/-- C7 witness: device 5 has key id 7; observing key id 9 raises
`DeviceKeyChangedError` and leaves the record unchanged; observing 7 again,
or a key id on a record with none set, does not raise. -/
theorem observe_device_key_changed_witness :
    ((c7db.observe_device 5 none (some 9) none).2 = some PyErr.deviceKeyChanged ∧
      alist_get ((c7db.observe_device 5 none (some 9) none).1).devices 5 = some c7st) ∧
    (c7db.observe_device 5 none (some 7) none).2 = none :=
  ⟨(observe_device_key_changed c7db 5 c7st (by decide)).1 7 9 (by decide) (by decide),
    (observe_device_key_changed c7db 5 c7st (by decide)).2.1 7 (by decide)⟩

/-- Looking up the key just set in an association list. -/
theorem alist_get_set_self {α β : Type} [DecidableEq α]
    (l : List (α × β)) (k : α) (v : β) :
    alist_get (alist_set l k v) k = some v := by
  induction l with
  | nil => simp [alist_get, alist_set]
  | cons p rest ih =>
    by_cases h : p.1 = k <;> simp [alist_get, alist_set, h, ih]

/-- `int_to_bytes_le` succeeds below the range bound and produces the plain
little-endian encoding. -/
theorem int_to_bytes_le_ok (val len : Nat) (h : val < 256 ^ len) :
    int_to_bytes_le val len = .ok (nat_le_bytes len val) := by
  simp [int_to_bytes_le, nat_le_bytes, h]

/-- C6: a key returned by the database lookups is HKDF-SHA256 with
`ikm` the root key, `salt` the 4-byte little-endian encoding of
`gps_time / 86400` (integer division), `info` the interface label, and
output length 32 — for the cached network-key path (given the derived-key
cache invariant) and for the uncached device-key path. -/
theorem key_schedule_hkdf (hkdf_sha256 : Nat → Bytes → Bytes → Bytes → Bytes)
    (load_network : Nat → Option Bytes) (db : DeviceDatabase)
    (hwf : DerivedKeysWF hkdf_sha256 db) :
    (∀ nid iface t db2 k,
      db._network_key hkdf_sha256 load_network nid iface t = .ok (db2, k) →
      (alist_get db2.network_keys nid).isSome ∧
      k = hkdf_sha256 32 ((alist_get db2.network_keys nid).getD [])
            (nat_le_bytes 4 (t / 86400)) iface) ∧
    (∀ id name t k,
      db._get_device_key hkdf_sha256 id name t = .ok k →
      ((alist_get db.devices id).bind DeviceState.shared_key).isSome ∧
      k = hkdf_sha256 32 (((alist_get db.devices id).bind DeviceState.shared_key).getD [])
            (nat_le_bytes 4 (t / 86400)) name) := by
  have h86400 : 60 * 60 * 24 = 86400 := by norm_num
  have hsalt_err : ∀ ti : Nat, ¬ ti < 256 ^ 4 → int_to_bytes_le ti 4 = .error .overflowError := by
    intro ti h; simp only [int_to_bytes_le, if_neg h]
  constructor
  · intro nid iface t db2 k hok
    unfold DeviceDatabase._network_key at hok
    rw [h86400] at hok
    simp only [] at hok
    split at hok
    · exact absurd hok (by simp)
    rename_i dbf hfetch
    -- facts about the state after the (possible) credential-store fetch
    have hfetch2 : (¬(alist_get db.network_keys nid).isNone ∧ dbf = db) ∨
        ((alist_get db.network_keys nid).isNone ∧
          ∃ key, load_network nid = some key ∧
            dbf = { db with network_keys := alist_set db.network_keys nid key }) := by
      by_cases hc : (alist_get db.network_keys nid).isNone
      · rw [if_pos hc] at hfetch
        rcases hl : load_network nid with _ | key <;> rw [hl] at hfetch
        · cases hfetch
        · cases hfetch; exact Or.inr ⟨hc, key, rfl, rfl⟩
      · rw [if_neg hc] at hfetch
        cases hfetch; exact Or.inl ⟨hc, rfl⟩
    have hderif : dbf.derived_keys = db.derived_keys := by
      rcases hfetch2 with ⟨_, rfl⟩ | ⟨_, key, _, rfl⟩ <;> rfl
    split at hok
    · exact absurd hok (by simp)
    rename_i base hbase
    split at hok
    · exact absurd hok (by simp)
    rename_i dbd hderiv
    split at hok
    · exact absurd hok (by simp)
    rename_i v hv
    obtain ⟨hdb2, hk⟩ : dbd = db2 ∧ v = k := by
      constructor <;> [exact congrArg Prod.fst (Except.ok.inj hok);
        exact congrArg Prod.snd (Except.ok.inj hok)]
    subst hdb2; subst hk
    by_cases hmiss : (alist_get dbf.derived_keys (nid, iface, t / 86400)).isNone
    · -- derived-cache miss: the key was freshly derived
      rw [if_pos hmiss] at hderiv
      by_cases hti : t / 86400 < 256 ^ 4
      · simp only [int_to_bytes_le_ok _ _ hti] at hderiv
        replace hderiv := Except.ok.inj hderiv
        subst hderiv
        simp only [alist_get_set_self] at hv
        obtain rfl := Option.some.inj hv
        refine ⟨?_, ?_⟩ <;> simp [hbase, hkdf_derive]
      · simp [hsalt_err _ hti] at hderiv
    · -- derived-cache hit: the invariant says the entry is the formula
      rw [if_neg hmiss] at hderiv
      replace hderiv := Except.ok.inj hderiv
      subst hderiv
      rw [hderif] at hv
      obtain ⟨base2, hbase2, _, hv2⟩ := hwf nid iface (t / 86400) _ hv
      have hbase3 : alist_get dbf.network_keys nid = some base2 := by
        rcases hfetch2 with ⟨_, rfl⟩ | ⟨hnone, key, _, rfl⟩
        · exact hbase2
        · rw [hbase2] at hnone; exact absurd hnone (by simp)
      have hb : base2 = base := by rw [hbase3] at hbase; exact Option.some.inj hbase
      subst hb
      exact ⟨by rw [hbase]; rfl, by rw [hbase, hv2]; rfl⟩
  · intro id name t k hok
    unfold DeviceDatabase._get_device_key at hok
    rw [h86400] at hok
    split at hok
    · exact absurd hok (by simp)
    rename_i d hd
    split at hok
    · exact absurd hok (by simp)
    rename_i hdkid
    split at hok
    · exact absurd hok (by simp)
    rename_i base hsk
    simp only [] at hok
    split at hok
    · exact absurd hok (by simp)
    rename_i salt hsalt
    by_cases hti : t / 86400 < 256 ^ 4
    · rw [int_to_bytes_le_ok _ _ hti] at hsalt
      obtain rfl := Except.ok.inj hsalt
      replace hok := Except.ok.inj hok
      refine ⟨by simp [hd, Option.bind, hsk], ?_⟩
      simp only [hd, Option.bind, hsk, Option.getD_some]
      rw [← hok]
      rfl
    · rw [hsalt_err _ hti] at hsalt
      exact absurd hsalt (by simp)


/-- C6 witness: on the fixture database, both lookups succeed and return the
HKDF formula applied to the root key, the day-index salt, and the label. -/
theorem key_schedule_hkdf_witness :
    ((alist_get c6db2.network_keys 2).isSome ∧
      c6net_k = c6hkdf 32 ((alist_get c6db2.network_keys 2).getD [])
        (nat_le_bytes 4 (100000 / 86400)) (strBytes "serial")) ∧
    (((alist_get c6db.devices 5).bind DeviceState.shared_key).isSome ∧
      c6dev_k = c6hkdf 32 (((alist_get c6db.devices 5).bind DeviceState.shared_key).getD [])
        (nat_le_bytes 4 (100000 / 86400)) (strBytes "serial")) :=
  ⟨(key_schedule_hkdf c6hkdf c6ln c6db
      (by intro n i ti v h; simp [c6db, alist_get] at h)).1
      2 (strBytes "serial") 100000 c6db2 c6net_k (by rfl),
    (key_schedule_hkdf c6hkdf c6ln c6db
      (by intro n i ti v h; simp [c6db, alist_get] at h)).2
      5 (strBytes "serial") 100000 c6dev_k (by rfl)⟩

/-- C1 (code bug): with full key material for the destination device in the
database, encoding a DEVICE-auth packet raises `AttributeError`
(`PacketOutput.to_serial` reads the nonexistent `DeviceState.device_id`
attribute), and decoding a DEVICE-auth serial frame raises `TypeError`
(`CtypeSerialFrame.decrypt` passes the unknown keyword `device_id` to
`observe_device`), so the encode/decode round trip cannot hold for the
DEVICE auth mode. -/
theorem epacket_roundtrip_device_bug :
    PacketOutput.to_serial encId c6hkdf c6ln c1db c1pkt 1000000 7
      = .error .attributeError ∧
    (CtypeSerialFrame.decrypt decOk c6hkdf c6ln c1db c1devframe).2
      = .error .typeError := by
  exact ⟨rfl, rfl⟩

/-- `_network_key` succeeds whenever the network root is already cached and
the day index fits `int.to_bytes(4)`, touching only the derived-key cache. -/
theorem _network_key_ok_of_root (hkdf_sha256 : Nat → Bytes → Bytes → Bytes → Bytes)
    (load_network : Nat → Option Bytes) (db : DeviceDatabase)
    (nid : Nat) (iface : Bytes) (t : Nat) (base : Bytes)
    (hroot : alist_get db.network_keys nid = some base)
    (ht : t / (60 * 60 * 24) < 256 ^ 4) :
    ∃ db2 k, db._network_key hkdf_sha256 load_network nid iface t = .ok (db2, k) ∧
      db2.gateway = db.gateway ∧ db2.devices = db.devices ∧
      db2.network_keys = db.network_keys := by
  unfold DeviceDatabase._network_key
  simp only [hroot, Option.isNone_some, Bool.false_eq_true, if_false]
  by_cases hdk : (alist_get db.derived_keys (nid, iface, t / (60 * 60 * 24))).isNone
  · rw [if_pos hdk, int_to_bytes_le_ok _ _ ht]
    simp only [alist_get_set_self]
    exact ⟨_, _, rfl, rfl, rfl, rfl⟩
  · rw [if_neg hdk]
    rcases hv : alist_get db.derived_keys (nid, iface, t / (60 * 60 * 24)) with _ | v
    · rw [hv] at hdk; exact absurd rfl hdk
    · simp only [hv]
      exact ⟨_, _, rfl, rfl, rfl, rfl⟩

/-- C3 (code bug): for a NETWORK-auth hop, `to_serial` writes the device's
24-bit `network_id` into the header's `key_metadata` field (bytes 4-6,
little-endian); for a DEVICE-auth hop, the claimed write of `device_key_id`
never happens — the source reads the nonexistent `DeviceState.device_id`
attribute and raises `AttributeError`. -/
theorem to_serial_key_metadata
    (enc : Bytes → Bytes → Bytes → Bytes → Bytes)
    (hkdf_sha256 : Nat → Bytes → Bytes → Bytes → Bytes)
    (load_network : Nat → Option Bytes)
    (db : DeviceDatabase) (dest : Nat) (st : DeviceState)
    (ptype : InfuseType) (payload : Bytes) (t entropy : Nat)
    (hdev : alist_get db.devices dest = some st) :
    (∀ n base g, st.network_id = some n → n < 2 ^ 24 →
      alist_get db.network_keys n = some base → t / 86400 < 256 ^ 4 →
      db.gateway = some g →
      (PacketOutput.to_serial enc hkdf_sha256 load_network db
        { route := [{ infuse_id := dest, interface := .SERIAL, auth := .NETWORK }],
          ptype := ptype, payload := payload } t entropy).map
        (fun r => int_from_bytes_le ((r.2.drop 4).take 3)) = .ok n) ∧
    PacketOutput.to_serial enc hkdf_sha256 load_network db
        { route := [{ infuse_id := dest, interface := .SERIAL, auth := .DEVICE }],
          ptype := ptype, payload := payload } t entropy = .error .attributeError := by
  constructor
  · intro n base g hnid hn24 hrootn ht hgw
    have ht2 : t / (60 * 60 * 24) < 256 ^ 4 := by
      rw [show (60 * 60 * 24 : Nat) = 86400 from rfl]; exact ht
    obtain ⟨db2, k, hok, hgw2, _, _⟩ :=
      _network_key_ok_of_root hkdf_sha256 load_network db n (strBytes "serial") t base
        hrootn ht2
    simp only [PacketOutput.to_serial, DeviceDatabase.serial_network_key,
      DeviceDatabase._get_network_key, hdev, hnid, hok, hn24, if_pos, hgw2, hgw,
      Except.map, CtypeV0VersionedFrame.bytes]
    simp only [List.drop_succ_cons, List.drop_zero, List.take_succ_cons,
      List.take_zero]
    simp only [int_from_bytes_le, List.foldr]
    exact congrArg Except.ok (by omega)
  · simp [PacketOutput.to_serial, hdev]

/-- C3 witness: concrete NETWORK-auth encode writes network_id 3 into the
key_metadata bytes; the DEVICE-auth encode fails with `AttributeError`. -/
theorem to_serial_key_metadata_witness :
    (PacketOutput.to_serial encId c6hkdf c6ln c1db
      { route := [{ infuse_id := 5, interface := .SERIAL, auth := .NETWORK }],
        ptype := .TDF, payload := [9] } 1000000 7).map
      (fun r => int_from_bytes_le ((r.2.drop 4).take 3)) = .ok 3 ∧
    PacketOutput.to_serial encId c6hkdf c6ln c1db
      { route := [{ infuse_id := 5, interface := .SERIAL, auth := .DEVICE }],
        ptype := .TDF, payload := [9] } 1000000 7 = .error .attributeError :=
  ⟨(to_serial_key_metadata encId c6hkdf c6ln c1db 5 c1st .TDF [9] 1000000 7
      (by decide)).1 3 [1, 2] 1 (by decide) (by decide) (by decide) (by decide)
      (by decide),
    (to_serial_key_metadata encId c6hkdf c6ln c1db 5 c1st .TDF [9] 1000000 7
      (by decide)).2⟩

/-- Unfolding lemma: `int_from_bytes_le` on a cons. -/
theorem int_from_bytes_le_cons (a : Nat) (l : Bytes) :
    int_from_bytes_le (a :: l) = a + 256 * int_from_bytes_le l := rfl

/-- A little-endian value of byte-valued digits is bounded by `256 ^ len`. -/
theorem int_from_bytes_le_lt (l : Bytes) (h : ∀ b ∈ l, b < 256) :
    int_from_bytes_le l < 256 ^ l.length := by
  induction l with
  | nil => simp [int_from_bytes_le]
  | cons a l ih =>
    have ha := h a (by simp)
    have hl := ih (fun b hb => h b (by simp [hb]))
    simp only [int_from_bytes_le_cons, List.length_cons, pow_succ]
    omega

/-- After `observe_device(id, network_id=km)`, the device record exists and
carries that network id. -/
theorem observe_device_network_id (db : DeviceDatabase) (id km : Nat) :
    ∃ st, alist_get ((db.observe_device id (some km) none none).1).devices id
        = some st ∧ st.network_id = some km := by
  unfold DeviceDatabase.observe_device
  rcases h0 : alist_get db.devices id with _ | st0 <;>
    simp only [gateway_if_devices, h0, Option.isNone_none, Option.isNone_some, if_true,
      Bool.false_eq_true, if_false, alist_get_set_self]
  · exact ⟨_, rfl, rfl⟩
  · exact ⟨_, rfl, rfl⟩

/-- Fetching a missing network root from the credential store and then
deriving is the same as deriving on the updated database. -/
theorem _network_key_fetch (hkdf_sha256 : Nat → Bytes → Bytes → Bytes → Bytes)
    (ln : Nat → Option Bytes) (db : DeviceDatabase)
    (nid : Nat) (iface : Bytes) (t : Nat) (key : Bytes)
    (hnk : alist_get db.network_keys nid = none) (hll : ln nid = some key) :
    db._network_key hkdf_sha256 ln nid iface t
      = ({ db with network_keys := alist_set db.network_keys nid key }
          : DeviceDatabase)._network_key hkdf_sha256 ln nid iface t := by
  conv_lhs => unfold DeviceDatabase._network_key
  conv_rhs => unfold DeviceDatabase._network_key
  simp only [hnk, hll, Option.isNone_none, if_true, alist_get_set_self,
    Option.isNone_some, Bool.false_eq_true, if_false]

/-- `_network_key` succeeds whenever the root is cached or the credential
store has it, and the day index fits 4 bytes. -/
theorem _network_key_ok_total (hkdf_sha256 : Nat → Bytes → Bytes → Bytes → Bytes)
    (ln : Nat → Option Bytes) (db : DeviceDatabase)
    (nid : Nat) (iface : Bytes) (t : Nat)
    (hload : (alist_get db.network_keys nid).isSome ∨ (ln nid).isSome)
    (ht : t / (60 * 60 * 24) < 256 ^ 4) :
    ∃ db2 k, db._network_key hkdf_sha256 ln nid iface t = .ok (db2, k) := by
  rcases hnk : alist_get db.network_keys nid with _ | base
  · rcases hll : ln nid with _ | key
    · rw [hnk, hll] at hload
      simp at hload
    · rw [_network_key_fetch hkdf_sha256 ln db nid iface t key hnk hll]
      obtain ⟨db2, k, hok, _⟩ :=
        _network_key_ok_of_root hkdf_sha256 ln
          { db with network_keys := alist_set db.network_keys nid key }
          nid iface t key (alist_get_set_self _ _ _) ht
      exact ⟨db2, k, hok⟩
  · obtain ⟨db2, k, hok, _⟩ :=
      _network_key_ok_of_root hkdf_sha256 ln db nid iface t base hnk ht
    exact ⟨db2, k, hok⟩

/-- `_get_network_key` succeeds right after observing the device with a
network id known to the credential store. -/
theorem network_key_after_observe_ok
    (hkdf_sha256 : Nat → Bytes → Bytes → Bytes → Bytes)
    (ln : Nat → Option Bytes) (hln : ∀ n, (ln n).isSome)
    (db : DeviceDatabase) (id km : Nat) (name : Bytes) (t : Nat)
    (ht : t / (60 * 60 * 24) < 256 ^ 4) :
    ∃ db2 k, DeviceDatabase._get_network_key hkdf_sha256 ln
        ((db.observe_device id (some km) none none).1) id name t = .ok (db2, k) := by
  obtain ⟨st, hst, hnid⟩ := observe_device_network_id db id km
  unfold DeviceDatabase._get_network_key
  simp only [hst, hnid]
  exact _network_key_ok_total hkdf_sha256 ln _ km name t (Or.inr (hln km)) ht

/-- A byte-valued frame of at least 23 bytes has a `gps_time` field whose
day index fits 4 bytes. -/
theorem frame_gps_time_div_lt (frame : Bytes) (h23 : 23 ≤ frame.length)
    (hbytes : ∀ b ∈ frame, b < 256) :
    int_from_bytes_le ((frame.drop 15).take 4) / (60 * 60 * 24) < 256 ^ 4 := by
  have hlen : ((frame.drop 15).take 4).length = 4 := by
    simp [List.length_take, List.length_drop]
    omega
  have hb : ∀ b ∈ (frame.drop 15).take 4, b < 256 := fun b hb =>
    hbytes b (List.mem_of_mem_drop (List.mem_of_mem_take hb))
  have := int_from_bytes_le_lt _ hb
  rw [hlen] at this
  exact Nat.lt_of_le_of_lt (Nat.div_le_self _ _) this

/-- `CtypeBtAdvFrame.decrypt` succeeds on a network-auth frame when the
credential store knows every network. -/
theorem bt_adv_decrypt_ok
    (dec : Bytes → Bytes → Bytes → Bytes → Except PyErr Bytes)
    (hkdf_sha256 : Nat → Bytes → Bytes → Bytes → Bytes)
    (ln : Nat → Option Bytes) (g : Bytes → Bytes)
    (hdec : ∀ k a nn c, dec k a nn c = .ok (g c))
    (hln : ∀ n, (ln n).isSome)
    (db : DeviceDatabase) (frame : Bytes)
    (h23 : 23 ≤ frame.length) (hbytes : ∀ b ∈ frame, b < 256)
    (hflags : int_from_bytes_le ((frame.drop 2).take 2) &&& Flags.ENCR_DEVICE = 0) :
    ∃ db2 hdr, frame_from_buffer frame = .ok hdr ∧
      CtypeBtAdvFrame.decrypt dec hkdf_sha256 ln db frame
        = (db2, .ok (hdr, g (frame.drop 23))) := by
  have hfb : ¬ frame.length < 23 := by omega
  unfold CtypeBtAdvFrame.decrypt
  unfold frame_from_buffer
  simp only [hfb, if_false]
  simp only [hflags, ne_eq, not_true_eq_false, if_false]
  obtain ⟨db2, k, hok⟩ := network_key_after_observe_ok hkdf_sha256 ln hln db
    (CtypeV0VersionedFrame.device_id _) (int_from_bytes_le ((frame.drop 4).take 3))
    (strBytes "bt_adv") (int_from_bytes_le ((frame.drop 15).take 4))
    (frame_gps_time_div_lt frame h23 hbytes)
  refine ⟨db2, _, rfl, ?_⟩
  simp only [DeviceDatabase.bt_adv_network_key] at hok ⊢
  rw [hok]
  simp only [hdec]

/-- `CtypeBtGattFrame.decrypt` succeeds on a network-auth frame when the
credential store knows every network. -/
theorem bt_gatt_decrypt_ok
    (dec : Bytes → Bytes → Bytes → Bytes → Except PyErr Bytes)
    (hkdf_sha256 : Nat → Bytes → Bytes → Bytes → Bytes)
    (ln : Nat → Option Bytes) (g : Bytes → Bytes)
    (hdec : ∀ k a nn c, dec k a nn c = .ok (g c))
    (hln : ∀ n, (ln n).isSome)
    (db : DeviceDatabase) (frame : Bytes)
    (h23 : 23 ≤ frame.length) (hbytes : ∀ b ∈ frame, b < 256)
    (hflags : int_from_bytes_le ((frame.drop 2).take 2) &&& Flags.ENCR_DEVICE = 0) :
    ∃ db2 hdr, frame_from_buffer frame = .ok hdr ∧
      CtypeBtGattFrame.decrypt dec hkdf_sha256 ln db frame
        = (db2, .ok (hdr, g (frame.drop 23))) := by
  have hfb : ¬ frame.length < 23 := by omega
  unfold CtypeBtGattFrame.decrypt
  unfold frame_from_buffer
  simp only [hfb, if_false]
  simp only [hflags, ne_eq, not_true_eq_false, if_false]
  obtain ⟨db2, k, hok⟩ := network_key_after_observe_ok hkdf_sha256 ln hln db
    (CtypeV0VersionedFrame.device_id _) (int_from_bytes_le ((frame.drop 4).take 3))
    (strBytes "bt_gatt") (int_from_bytes_le ((frame.drop 15).take 4))
    (frame_gps_time_div_lt frame h23 hbytes)
  refine ⟨db2, _, rfl, ?_⟩
  simp only [DeviceDatabase.bt_gatt_network_key] at hok ⊢
  rw [hok]
  simp only [hdec]

/-- One iteration of the RECEIVED_EPACKET loop on a well-formed entry:
it consumes exactly the entry's bytes and prepends one packet satisfying
the claim's route/RSSI contract. -/
theorem from_serial_loop_step
    (dec : Bytes → Bytes → Bytes → Bytes → Except PyErr Bytes)
    (hkdf_sha256 : Nat → Bytes → Bytes → Bytes → Bytes)
    (ln : Nat → Option Bytes) (g : Bytes → Bytes) (carrier : HopReceived)
    (hdec : ∀ k a nn c, dec k a nn c = .ok (g c))
    (hln : ∀ n, (ln n).isSome)
    (e : ContainedEntry) (hwf : EntryWF e)
    (rest : Bytes) (db : DeviceDatabase) (acc : List PacketReceived) (fuel : Nat) :
    ∃ p db1, from_serial_loop dec hkdf_sha256 ln carrier (fuel + 1) db
        (e.entryBytes ++ rest) acc
      = from_serial_loop dec hkdf_sha256 ln carrier fuel db1 rest (p :: acc) ∧
      NestedDecodeOK carrier e p := by
  obtain ⟨hif, haddr6, hlen15, hfbytes, hinner⟩ := hwf
  have hcons : e.entryBytes ++ rest
      = e.lenEncr % 256 :: e.lenEncr / 256 % 256 :: e.rssiByte :: e.ifByte ::
        e.addrType :: (e.addrBytes ++ (e.frame ++ rest)) := by
    simp [ContainedEntry.entryBytes]
  have hEBlen : e.entryBytes.length = e.frame.length + 11 := by
    simp [ContainedEntry.entryBytes, haddr6]
    omega
  have hle16 : e.lenEncr < 65536 := by
    unfold ContainedEntry.lenEncr
    rcases e.encrypted <;> simp <;> omega
  have hparse : CommonHeader.parse (e.entryBytes ++ rest)
      = .ok ⟨e.lenEncr, e.rssiByte, e.ifByte⟩ := by
    have h4 : ¬ (e.entryBytes ++ rest).length < 4 := by
      simp [List.length_append, hEBlen]
      omega
    have hv : int_from_bytes_le [e.lenEncr % 256, e.lenEncr / 256 % 256] = e.lenEncr := by
      simp only [int_from_bytes_le, List.foldr]
      omega
    unfold CommonHeader.parse
    rw [if_neg h4, hcons]
    simp only [List.take_succ_cons, List.take_zero, List.getD_cons_succ,
      List.getD_cons_zero, hv]
  have hlen_val : CommonHeader.len ⟨e.lenEncr, e.rssiByte, e.ifByte⟩
      = e.entryBytes.length := by
    unfold CommonHeader.len ContainedEntry.lenEncr
    rw [hEBlen, show (0x7FFF : Nat) = 2 ^ 15 - 1 from rfl,
      Nat.and_pow_two_sub_one_eq_mod]
    rcases e.encrypted <;> simp <;> omega
  have henc_val : CommonHeader.encrypted ⟨e.lenEncr, e.rssiByte, e.ifByte⟩
      = e.encrypted := by
    unfold CommonHeader.encrypted ContainedEntry.lenEncr
    rw [show (0x8000 : Nat) = 2 ^ 15 from rfl, Nat.and_two_pow,
      Nat.testBit_to_div_mod]
    rcases henc : e.encrypted <;> simp only [henc, if_true, if_false]
    · simp
      omega
    · simp
      omega
  have hifok : Interface.ofValue e.ifByte = .ok e.iface := by
    rcases hif with h | h | h <;> simp [h, Interface.ofValue, ContainedEntry.iface]
  have hnotser : ¬ (e.iface = Interface.SERIAL ∨ e.iface = Interface.UDP) := by
    rcases hif with h | h | h <;> simp [h, ContainedEntry.iface]
  have hpb : ((e.entryBytes ++ rest).take e.entryBytes.length).drop 4
      = e.addrType :: (e.addrBytes ++ e.frame) := by
    rw [List.take_left]
    simp [ContainedEntry.entryBytes]
  have hbuf2 : (e.entryBytes ++ rest).drop e.entryBytes.length = rest :=
    List.drop_left _ _
  have haddrok : InterfaceAddress.from_bytes e.iface (e.addrType :: (e.addrBytes ++ e.frame))
      = .ok (.bluetoothLeAddr e.addrType (int_from_bytes_le e.addrBytes)) := by
    have hbt : e.iface = Interface.BT_ADV ∨ e.iface = Interface.BT_PERIPHERAL ∨
        e.iface = Interface.BT_CENTRAL := by
      rcases hif with h | h | h <;> simp [h, ContainedEntry.iface]
    have h7 : ¬ (e.addrType :: (e.addrBytes ++ e.frame)).length < 7 := by
      simp [haddr6]
    have htk : ((e.addrType :: (e.addrBytes ++ e.frame)).drop 1).take 6 = e.addrBytes := by
      simp only [List.drop_succ_cons, List.drop_zero]
      rw [← haddr6, List.take_left]
    unfold InterfaceAddress.from_bytes
    rw [if_pos hbt, if_neg h7, htk]
    rfl
  have hdropaddr : (e.addrType :: (e.addrBytes ++ e.frame)).drop
      (InterfaceAddress.addrLen (.bluetoothLeAddr e.addrType (int_from_bytes_le e.addrBytes)))
      = e.frame := by
    show (e.addrType :: (e.addrBytes ++ e.frame)).drop 7 = e.frame
    simp only [List.drop_succ_cons]
    rw [← haddr6, List.drop_left]
  simp only [from_serial_loop]
  rw [hcons]
  simp only [List.isEmpty_cons, Bool.false_eq_true, if_false]
  rw [← hcons]
  simp only [hparse, hlen_val, henc_val, hpb, hbuf2, hifok, hnotser, if_false,
    haddrok, hdropaddr]
  have hval : e.iface.value = e.ifByte := by
    rcases hif with h | h | h <;> simp [h, ContainedEntry.iface, Interface.value]
  have hrssi : CommonHeader.rssi ⟨e.lenEncr, e.rssiByte, e.ifByte⟩ = -(e.rssiByte : Int) := by
    simp [CommonHeader.rssi]
  rcases henc2 : e.encrypted
  · -- plaintext entry
    rw [henc2] at hinner
    simp only [Bool.false_eq_true, if_false] at hinner
    obtain ⟨h20, ty, hty⟩ := hinner
    have hdp : ¬ e.frame.length < 20 := by omega
    simp only [henc2, Bool.false_eq_true, if_false, DecryptedHeader.parse, hdp,
      hty]
    refine ⟨_, db, rfl, ?_⟩
    refine ⟨_, rfl, hval, rfl, ?_, ?_⟩
    · exact hrssi
    · simp [ContainedEntry.originId, henc2]
  · -- encrypted entry
    rw [henc2] at hinner
    simp only [if_true] at hinner
    obtain ⟨h23, hflags, ty, hty⟩ := hinner
    simp only [henc2, if_true]
    by_cases hadv : e.iface = Interface.BT_ADV
    · obtain ⟨db2, hdr, hfb, hstep⟩ := bt_adv_decrypt_ok dec hkdf_sha256 ln g hdec hln
        db e.frame h23 hfbytes hflags
      rw [if_pos hadv]
      simp only [hstep]
      have htype : hdr._type = e.frame.getD 1 0 := by
        unfold frame_from_buffer at hfb
        rw [if_neg (by omega : ¬ e.frame.length < 23)] at hfb
        rw [← Except.ok.inj hfb]
      have hdev : hdr.device_id = e.originId := by
        unfold frame_from_buffer at hfb
        rw [if_neg (by omega : ¬ e.frame.length < 23)] at hfb
        rw [← Except.ok.inj hfb]
        simp [CtypeV0VersionedFrame.device_id, ContainedEntry.originId, henc2]
      rw [htype]
      simp only [hty]
      refine ⟨_, db2, rfl, ?_⟩
      exact ⟨_, rfl, hval, rfl, hrssi, hdev⟩
    · obtain ⟨db2, hdr, hfb, hstep⟩ := bt_gatt_decrypt_ok dec hkdf_sha256 ln g hdec hln
        db e.frame h23 hfbytes hflags
      rw [if_neg hadv]
      simp only [hstep]
      have htype : hdr._type = e.frame.getD 1 0 := by
        unfold frame_from_buffer at hfb
        rw [if_neg (by omega : ¬ e.frame.length < 23)] at hfb
        rw [← Except.ok.inj hfb]
      have hdev : hdr.device_id = e.originId := by
        unfold frame_from_buffer at hfb
        rw [if_neg (by omega : ¬ e.frame.length < 23)] at hfb
        rw [← Except.ok.inj hfb]
        simp [CtypeV0VersionedFrame.device_id, ContainedEntry.originId, henc2]
      rw [htype]
      simp only [hty]
      refine ⟨_, db2, rfl, ?_⟩
      exact ⟨_, rfl, hval, rfl, hrssi, hdev⟩

/-- The RECEIVED_EPACKET loop decodes a well-formed sequence of entries into
one packet per entry, in encoded order, each satisfying the claim's
two-hop/RSSI contract. -/
theorem from_serial_loop_entries
    (dec : Bytes → Bytes → Bytes → Bytes → Except PyErr Bytes)
    (hkdf_sha256 : Nat → Bytes → Bytes → Bytes → Bytes)
    (ln : Nat → Option Bytes) (g : Bytes → Bytes) (carrier : HopReceived)
    (hdec : ∀ k a nn c, dec k a nn c = .ok (g c))
    (hln : ∀ n, (ln n).isSome) :
    ∀ (entries : List ContainedEntry) (fuel : Nat) (db : DeviceDatabase)
      (acc : List PacketReceived),
      (∀ e ∈ entries, EntryWF e) →
      (entriesBytes entries).length < fuel →
      ∃ db2 packets,
        from_serial_loop dec hkdf_sha256 ln carrier fuel db (entriesBytes entries) acc
          = (db2, .ok (acc.reverse ++ packets)) ∧
        List.Forall₂ (NestedDecodeOK carrier) entries packets := by
  intro entries
  induction entries with
  | nil =>
    intro fuel db acc _ _
    refine ⟨db, [], ?_, List.Forall₂.nil⟩
    rcases fuel <;> simp [from_serial_loop, entriesBytes]
  | cons e es ih =>
    intro fuel db acc hwf hfuel
    have hsplit : entriesBytes (e :: es) = e.entryBytes ++ entriesBytes es := by
      simp [entriesBytes]
    have hEBlen : e.entryBytes.length = e.frame.length + 11 := by
      simp [ContainedEntry.entryBytes, (hwf e (by simp)).2.1]
      omega
    rcases fuel with _ | fuel
    · rw [hsplit, List.length_append] at hfuel
      omega
    · rw [hsplit]
      obtain ⟨p, db1, hstep, hok⟩ := from_serial_loop_step dec hkdf_sha256 ln g carrier
        hdec hln e (hwf e (by simp)) (entriesBytes es) db acc fuel
      rw [hstep]
      obtain ⟨db2, packets, hloop, hforall⟩ := ih fuel db1 (p :: acc)
        (fun x hx => hwf x (by simp [hx]))
        (by rw [hsplit, List.length_append] at hfuel; omega)
      rw [hloop]
      refine ⟨db2, p :: packets, ?_, List.Forall₂.cons hok hforall⟩
      simp

/-- `CtypeSerialFrame.decrypt` succeeds on a network-auth frame when the
credential store knows every network. -/
theorem serial_decrypt_ok
    (dec : Bytes → Bytes → Bytes → Bytes → Except PyErr Bytes)
    (hkdf_sha256 : Nat → Bytes → Bytes → Bytes → Bytes)
    (ln : Nat → Option Bytes) (g : Bytes → Bytes)
    (hdec : ∀ k a nn c, dec k a nn c = .ok (g c))
    (hln : ∀ n, (ln n).isSome)
    (db : DeviceDatabase) (frame : Bytes)
    (h23 : 23 ≤ frame.length) (hbytes : ∀ b ∈ frame, b < 256)
    (hflags : int_from_bytes_le ((frame.drop 2).take 2) &&& Flags.ENCR_DEVICE = 0) :
    ∃ db2 hdr, frame_from_buffer frame = .ok hdr ∧
      CtypeSerialFrame.decrypt dec hkdf_sha256 ln db frame
        = (db2, .ok (hdr, g (frame.drop 23))) := by
  have hfb : ¬ frame.length < 23 := by omega
  unfold CtypeSerialFrame.decrypt
  unfold frame_from_buffer
  simp only [hfb, if_false]
  simp only [hflags, ne_eq, not_true_eq_false, if_false]
  obtain ⟨db2, k, hok⟩ := network_key_after_observe_ok hkdf_sha256 ln hln db
    (CtypeV0VersionedFrame.device_id _) (int_from_bytes_le ((frame.drop 4).take 3))
    (strBytes "serial") (int_from_bytes_le ((frame.drop 15).take 4))
    (frame_gps_time_div_lt frame h23 hbytes)
  refine ⟨db2, _, rfl, ?_⟩
  simp only [DeviceDatabase.serial_network_key] at hok ⊢
  rw [hok]
  simp only [hdec]

/-- C8: decoding a serial RECEIVED_EPACKET frame whose payload is a
well-formed sequence of contained entries yields one packet per entry, in
the order they appear in the payload; each packet has a two-hop route: an
inner hop for the origin device on the entry's Bluetooth interface with
RSSI the negation of the unsigned rssi byte, then the carrier serial hop
built from the outer header. -/
theorem from_serial_nested_container
    (dec : Bytes → Bytes → Bytes → Bytes → Except PyErr Bytes)
    (hkdf_sha256 : Nat → Bytes → Bytes → Bytes → Bytes)
    (ln : Nat → Option Bytes) (g : Bytes → Bytes)
    (db : DeviceDatabase) (sframe : Bytes) (entries : List ContainedEntry)
    (hdec : ∀ k a nn c, dec k a nn c = .ok (g c))
    (hln : ∀ n, (ln n).isSome)
    (h23 : 23 ≤ sframe.length) (hbytes : ∀ b ∈ sframe, b < 256)
    (hflags : int_from_bytes_le ((sframe.drop 2).take 2) &&& Flags.ENCR_DEVICE = 0)
    (htype : sframe.getD 1 0 = 7)
    (hpayload : g (sframe.drop 23) = entriesBytes entries)
    (hwf : ∀ e ∈ entries, EntryWF e) :
    ∃ hdr db2 packets, frame_from_buffer sframe = .ok hdr ∧
      PacketReceived.from_serial dec hkdf_sha256 ln db sframe = (db2, .ok packets) ∧
      List.Forall₂ (NestedDecodeOK (CtypeSerialFrame.hop_received hdr))
        entries packets := by
  obtain ⟨db1, hdr, hfb, hdecr⟩ := serial_decrypt_ok dec hkdf_sha256 ln g hdec hln
    db sframe h23 hbytes hflags
  have htype2 : hdr._type = 7 := by
    unfold frame_from_buffer at hfb
    rw [if_neg (by omega : ¬ sframe.length < 23)] at hfb
    rw [← Except.ok.inj hfb]
    exact htype
  have hov : InfuseType.ofValue 7 = .ok .RECEIVED_EPACKET := rfl
  unfold PacketReceived.from_serial
  simp only [hdecr]
  rw [htype2]
  simp only [hov, ne_eq, not_true_eq_false, Bool.false_eq_true, if_false]
  rw [hpayload]
  obtain ⟨db2, packets, hloop, hforall⟩ := from_serial_loop_entries dec hkdf_sha256 ln g
    (CtypeSerialFrame.hop_received hdr) hdec hln entries
    ((g (sframe.drop 23)).length + 1) db1 [] hwf (by rw [hpayload]; omega)
  rw [hpayload] at hloop
  rw [hloop]
  exact ⟨hdr, db2, packets, hfb, by simp, hforall⟩

/-- C8 witness: the concrete container frame decodes through the claim's
contract. -/
theorem from_serial_nested_container_witness :
    ∃ hdr db2 packets, frame_from_buffer c8frame = .ok hdr ∧
      PacketReceived.from_serial decC8 c6hkdf c8ln DeviceDatabase.init c8frame
        = (db2, .ok packets) ∧
      List.Forall₂ (NestedDecodeOK (CtypeSerialFrame.hop_received hdr))
        [c8entry] packets :=
  from_serial_nested_container decC8 c6hkdf c8ln c8g DeviceDatabase.init c8frame
    [c8entry] (fun _ _ _ _ => rfl) (fun _ => rfl) (by decide) (by decide)
    (by decide) (by decide) rfl
    (by
      intro e he
      rw [List.mem_singleton] at he
      subst he
      refine ⟨by decide, by decide, by decide, by decide, ?_⟩
      rw [if_neg (by decide)]
      exact ⟨by decide, InfuseType.TDF, rfl⟩)

/-- `Interface(n)` inverts `.value`. -/
theorem interface_ofValue_value (i : Interface) : Interface.ofValue i.value = .ok i := by
  cases i <;> rfl

/-- `Auth(n)` inverts `.value`. -/
theorem auth_ofValue_value (a : Auth) : Auth.ofValue a.value = .ok a := by
  cases a <;> rfl

/-- `InfuseType(n)` inverts `.value`. -/
theorem infuse_type_ofValue_value (t : InfuseType) : InfuseType.ofValue t.value = .ok t := by
  cases t <;> rfl

/-- Interface-address JSON round trip. -/
theorem interface_address_from_json_to_json (a : InterfaceAddress) :
    InterfaceAddress.from_json a.to_json = .ok a := by
  cases a with
  | serialAddr => rfl
  | bluetoothLeAddr t v =>
    simp [InterfaceAddress.to_json, InterfaceAddress.from_json, jget, alist_get,
      JVal.asStr, JVal.asInt, strBytes]

/-- Received-hop JSON round trip. -/
theorem hop_received_from_json_to_json (hop : HopReceived) :
    HopReceived.from_json hop.to_json = .ok hop := by
  unfold HopReceived.to_json HopReceived.from_json
  simp only [jget, alist_get, JVal.asInt, JVal.asStr, Int.toNat_natCast,
    interface_ofValue_value, auth_ofValue_value, interface_address_from_json_to_json,
    String.reduceEq, if_true, if_false, reduceIte]

/-- Route-list JSON round trip. -/
theorem HopReceived.from_json_list_map (route : List HopReceived) :
    HopReceived.from_json_list (route.map HopReceived.to_json) = .ok route := by
  induction route with
  | nil => rfl
  | cons h rest ih =>
    simp [HopReceived.from_json_list, hop_received_from_json_to_json, ih]

/-- C9: broadcasting a received packet over the JSON bus is lossless —
`from_json (to_json p)` reconstructs the route (all hops and interface
addresses), the packet type, and the payload exactly, for any base64
codec satisfying the decode-encode identity. -/
theorem packet_json_roundtrip (b64encode : Bytes → Bytes)
    (b64decode : Bytes → Except PyErr Bytes)
    (hb64 : ∀ b, b64decode (b64encode b) = .ok b) (p : PacketReceived) :
    PacketReceived.from_json b64decode (PacketReceived.to_json b64encode p)
      = .ok p := by
  unfold PacketReceived.to_json PacketReceived.from_json
  simp only [jget, alist_get, JVal.asInt, JVal.asStr, Int.toNat_natCast,
    infuse_type_ofValue_value, HopReceived.from_json_list_map, hb64,
    String.reduceEq, if_true, if_false, reduceIte]

/-- C9 witness: a two-hop packet with both address kinds round-trips through
the identity base64 codec. -/
theorem packet_json_roundtrip_witness :
    PacketReceived.from_json (fun b => .ok b)
      (PacketReceived.to_json (fun b => b) c9packet) = .ok c9packet :=
  packet_json_roundtrip (fun b => b) (fun b => .ok b) (fun _ => rfl) c9packet

set_option maxRecDepth 8000

/-- C2 counterexample: at `original = b""`, `new = b""` the generator does
not produce a patch at all — `_cleanup_jumps` evaluates `merged[0]` on an
empty instruction list and raises `IndexError` — so
`patch(original, generate(original, new)) == new` fails at this input. -/
theorem patch_roundtrip_counterexample :
    diff.generate [] [] = .error .indexError := by rfl

/-- C2 (amended): whenever `generate` returns a patch, applying it to the
original reconstructs `new` exactly — guaranteed by the final self-check
(`assert bin_new == patched`) which re-runs `patch` before returning. -/
theorem patch_of_generate (bin_original bin_new p : Bytes)
    (h : diff.generate bin_original bin_new = .ok p) :
    diff.patch bin_original p = .ok bin_new := by
  unfold diff.generate at h
  split at h
  · exact absurd h (by simp)
  rename_i meta cacheO instrO heq
  split at h
  · rename_i instructions cache
    split at h
    · exact absurd h (by simp)
    rename_i patch_data hdata
    split at h
    · exact absurd h (by simp)
    rename_i patch_header hheader
    simp only [] at h
    split at h
    · exact absurd h (by simp)
    split at h
    · exact absurd h (by simp)
    · rename_i patched hpatch
      split at h
      · rename_i hnew
        obtain rfl := Except.ok.inj h
        rw [hpatch, hnew]
      · exact absurd h (by simp)
  · exact absurd h (by simp)

/-- C2 witness: a concrete successful generation round-trips. -/
theorem patch_of_generate_witness :
    diff.patch c2orig ((diff.generate c2orig c2orig).toOption.getD []) = .ok c2orig :=
  patch_of_generate c2orig c2orig ((diff.generate c2orig c2orig).toOption.getD [])
    (by rfl)

/-- C4 counterexample: a patch whose magic field is 0 (not `0xBA854092`)
but whose header CRC, body length and body CRC are consistent is accepted
by `diff.patch` — no `ValidationError` is raised, because `_patch_load`
never compares the stored magic against `magic_value`. -/
theorem patch_magic_counterexample :
    int_from_bytes_le (c4patch.take 4) = 0 ∧ diff.magic_value ≠ 0 ∧
    diff.patch [] c4patch = .ok [] :=
  ⟨by rfl, by decide, by rfl⟩

/-- C4 (amended): on load, `diff.patch` validates the header CRC — any
patch of at least header size whose stored `header_crc` differs from the
CRC-32 of the first 156 header bytes raises `ValidationError` — but the
magic field itself is never checked. -/
theorem patch_header_crc_validated (orig pb : Bytes)
    (hlen : 160 ≤ pb.length)
    (hcrc : crc32 (pb.take 156) ≠ int_from_bytes_le ((pb.drop 156).take 4)) :
    diff.patch orig pb = .error .validationError := by
  have hload : diff._patch_load pb = .error .validationError := by
    unfold diff._patch_load
    rw [if_neg (by omega)]
    simp only []
    rw [if_pos hcrc]
  unfold diff.patch
  rw [hload]

/-- C4 witness: an all-zero 160-byte patch fails header-CRC validation. -/
theorem patch_header_crc_validated_witness :
    diff.patch [] (List.replicate 160 0) = .error .validationError :=
  patch_header_crc_validated [] (List.replicate 160 0) (by decide) (by decide)

/-- A predicate on keys is preserved by `alist_incr`. -/
theorem alist_incr_pred (P : Bytes → Prop) (l : List (Bytes × Nat)) (key : Bytes)
    (hl : ∀ x ∈ l, P x.1) (hk : P key) : ∀ x ∈ alist_incr l key, P x.1 := by
  induction l with
  | nil => intro x hx; simp only [alist_incr, List.mem_singleton] at hx; subst hx; exact hk
  | cons y rest ih =>
    intro x hx
    obtain ⟨k, c⟩ := y
    simp only [alist_incr] at hx
    split at hx
    · rcases List.mem_cons.mp hx with h | h
      · subst h; exact hl (k, c) (List.mem_cons_self _ _)
      · exact hl x (List.mem_cons_of_mem _ h)
    · rcases List.mem_cons.mp hx with h | h
      · subst h; exact hl (k, c) (List.mem_cons_self _ _)
      · exact ih (fun z hz => hl z (List.mem_cons_of_mem _ hz)) x h

/-- Every key of the `_common_writes` occurrence table is a write payload
of at least 8 bytes. -/
theorem writeChunks_pred (instructions : List Instr) :
    ∀ x ∈ writeChunks instructions, 8 ≤ x.1.length := by
  suffices h : ∀ (l : List Instr) (acc : List (Bytes × Nat)),
      (∀ x ∈ acc, 8 ≤ x.1.length) →
      ∀ x ∈ l.foldl
        (fun acc instr =>
          match instr with
          | .writeInstr data => if data.length < 8 then acc else alist_incr acc data
          | _ => acc) acc, 8 ≤ x.1.length by
    exact h instructions [] (by simp)
  intro l
  induction l with
  | nil => intro acc hacc; simpa using hacc
  | cons instr rest ih =>
    intro acc hacc
    simp only [List.foldl_cons]
    cases instr with
    | writeInstr data =>
      by_cases hlen : data.length < 8
      · simpa [hlen] using ih acc hacc
      · simpa [hlen] using ih _ (alist_incr_pred (fun b => 8 ≤ b.length) acc data hacc (Nat.not_lt.mp hlen))
    | copyInstr a b => exact ih acc hacc
    | writeCachedInstr a b => exact ih acc hacc
    | setAddrInstr a b => exact ih acc hacc
    | patchInstr ops => exact ih acc hacc

/-- Membership after a stable descending insertion. -/
theorem insertBySavingDesc_mem (x y : Bytes × Nat) (l : List (Bytes × Nat))
    (h : x ∈ insertBySavingDesc y l) : x = y ∨ x ∈ l := by
  induction l with
  | nil => simp only [insertBySavingDesc, List.mem_singleton] at h; exact Or.inl h
  | cons z rest ih =>
    simp only [insertBySavingDesc] at h
    split at h
    · rcases List.mem_cons.mp h with h | h
      · exact Or.inr (h ▸ List.mem_cons_self _ _)
      · rcases ih h with h | h
        · exact Or.inl h
        · exact Or.inr (List.mem_cons_of_mem _ h)
    · rcases List.mem_cons.mp h with h | h
      · exact Or.inl h
      · exact Or.inr h

/-- `sortBySavingDesc` only permutes its input. -/
theorem sortBySavingDesc_mem (x : Bytes × Nat) (l : List (Bytes × Nat))
    (h : x ∈ sortBySavingDesc l) : x ∈ l := by
  induction l with
  | nil => simp [sortBySavingDesc] at h
  | cons y rest ih =>
    simp only [sortBySavingDesc, List.foldr_cons] at h
    rcases insertBySavingDesc_mem x y _ h with h | h
    · exact h ▸ List.mem_cons_self _ _
    · exact List.mem_cons_of_mem _ (ih h)

/-- The cache-allocation loop of `_common_writes` keeps every cached entry
at least 8 bytes long and the encoded size `sum (1 + len)` within the
128-byte budget. -/
theorem selectCached_bound (l : List (Bytes × Nat)) :
    ∀ (cached : List Bytes) (allocated : Nat),
    (∀ x ∈ l, 8 ≤ x.1.length) →
    (∀ e ∈ cached, 8 ≤ e.length) →
    allocated = (cached.map (fun e => 1 + e.length)).sum →
    allocated ≤ 128 →
    (∀ e ∈ selectCached l cached allocated, 8 ≤ e.length) ∧
      ((selectCached l cached allocated).map (fun e => 1 + e.length)).sum ≤ 128 := by
  induction l with
  | nil =>
    intro cached allocated _ hc ha hb
    exact ⟨hc, by rw [selectCached, ← ha]; exact hb⟩
  | cons y rest ih =>
    intro cached allocated hl hc ha hb
    obtain ⟨wb, sv⟩ := y
    rw [selectCached]
    split
    · exact ⟨hc, ha ▸ hb⟩
    · split
      · exact ih cached allocated (fun x hx => hl x (List.mem_cons_of_mem _ hx)) hc ha hb
      · rename_i hover
        refine ih (cached ++ [wb]) (allocated + 1 + wb.length)
          (fun x hx => hl x (List.mem_cons_of_mem _ hx)) ?_ ?_ ?_
        · intro e he
          rcases List.mem_append.mp he with h | h
          · exact hc e h
          · rw [List.mem_singleton.mp h]
            exact hl (wb, sv) (List.mem_cons_self _ _)
        · simp [List.map_append, List.sum_append, ha]
          omega
        · have h128 : diff.cache_size = 128 := rfl
          rw [h128] at hover
          omega

/-- Entries of at least 8 data bytes encode to at least 9 bytes each. -/
theorem cache_sum_lower (cache : List Bytes)
    (h8 : ∀ e ∈ cache, 8 ≤ e.length) :
    9 * cache.length ≤ (cache.map (fun e => 1 + e.length)).sum := by
  induction cache with
  | nil => simp
  | cons e rest ih =>
    have he : 8 ≤ e.length := h8 e (List.mem_cons_self _ _)
    have hr := ih (fun x hx => h8 x (List.mem_cons_of_mem _ hx))
    simp only [List.map_cons, List.sum_cons, List.length_cons]
    omega

/-- The write cache picked by `_common_writes` is always bounded. -/
theorem common_writes_cache_bounded (instructions : List Instr) :
    CacheBounded (diff._common_writes instructions).1 := by
  unfold diff._common_writes
  simp only []
  have hl : ∀ x ∈ sortBySavingDesc ((writeChunks instructions).filterMap
      (fun vc => if vc.2 > 2 then some (vc.1, (vc.2 - 1) * vc.1.length) else none)),
      8 ≤ x.1.length := by
    intro x hx
    have hx2 := sortBySavingDesc_mem x _ hx
    rcases List.mem_filterMap.mp hx2 with ⟨vc, hvc, hfc⟩
    split at hfc
    · obtain rfl := (Option.some.inj hfc).symm
      exact writeChunks_pred instructions vc hvc
    · exact absurd hfc (by simp)
  exact selectCached_bound _ [] 0 hl (by simp) (by simp) (by omega)

/-- The write cache of any successful per-`hash_len` candidate is
bounded. -/
theorem gen_candidate_cache_bounded (bin_orig bin_new : Bytes) (h : Nat)
    (wc : List Bytes) (instr : List Instr)
    (hok : gen_candidate bin_orig bin_new h = .ok (wc, instr)) :
    CacheBounded wc := by
  unfold gen_candidate at hok
  split at hok
  · exact absurd hok (by simp)
  · rename_i instr1 h1
    split at hok
    · exact absurd hok (by simp)
    · rename_i instr2 h2
      simp only [] at hok
      split at hok
      · exact absurd hok (by simp)
      · rename_i instr3 h3
        obtain ⟨rfl, rfl⟩ := Prod.mk.injEq .. ▸ Except.ok.inj hok
        exact common_writes_cache_bounded instr2

/-- One best-candidate update step preserves cache boundedness. -/
theorem gen_fold_step_inv (bin_orig bin_new : Bytes)
    (best st' : Option (List Instr) × Option (List Bytes) × Nat) (i : Nat)
    (hbest : ∀ c, best.2.1 = some c → CacheBounded c)
    (hstep : gen_fold_step bin_orig bin_new best i = .ok st') :
    ∀ c, st'.2.1 = some c → CacheBounded c := by
  unfold gen_fold_step at hstep
  split at hstep
  · exact absurd hstep (by simp)
  · rename_i wc instr hcand
    simp only [] at hstep
    split at hstep
    · obtain rfl := Except.ok.inj hstep
      intro c hc
      exact Option.some.inj hc ▸ gen_candidate_cache_bounded bin_orig bin_new i wc instr hcand
    · obtain rfl := Except.ok.inj hstep
      exact hbest

/-- The best-candidate fold preserves cache boundedness. -/
theorem gen_fold_inv (bin_orig bin_new : Bytes) (l : List Nat)
    (init st : Option (List Instr) × Option (List Bytes) × Nat)
    (hinit : ∀ c, init.2.1 = some c → CacheBounded c)
    (h : l.foldlM (gen_fold_step bin_orig bin_new) init = .ok st) :
    ∀ c, st.2.1 = some c → CacheBounded c := by
  induction l generalizing init with
  | nil =>
    rw [List.foldlM_nil] at h
    obtain rfl := Except.ok.inj (show (Except.ok init : Except PyErr _) = Except.ok st from h)
    exact hinit
  | cons x rest ih =>
    rw [List.foldlM_cons] at h
    cases hfx : gen_fold_step bin_orig bin_new init x with
    | error e =>
      rw [hfx] at h
      exact absurd (show (Except.error e : Except PyErr _) = Except.ok st from h) (by simp)
    | ok b =>
      rw [hfx] at h
      exact ih b (gen_fold_step_inv bin_orig bin_new init b x hinit hfx)
        (show rest.foldlM (gen_fold_step bin_orig bin_new) b = .ok st from h)

/-- The write cache returned by `_gen_patch_instr` is bounded. -/
theorem gen_patch_instr_cache_bounded (bin_orig bin_new : Bytes)
    (meta : PatchMeta) (cache : List Bytes) (instrO : Option (List Instr))
    (h : diff._gen_patch_instr bin_orig bin_new = .ok (meta, some cache, instrO)) :
    CacheBounded cache := by
  unfold diff._gen_patch_instr at h
  split at h
  · exact absurd h (by simp)
  · rename_i bp bwc n hfold
    have h2 := Except.ok.inj h
    have hbwc : bwc = some cache := congrArg (fun t => t.2.1) h2
    exact gen_fold_inv bin_orig bin_new [4, 5, 6, 7] (none, none, 2 ^ 32) (bp, bwc, n)
      (fun c hc => absurd hc (by simp)) hfold cache hbwc

/-- The encoded write-cache region occupies `sum (1 + len)` bytes. -/
theorem encode_cache_entries_length (cache : List Bytes) :
    ∀ bs : Bytes, encode_cache_entries cache = .ok bs →
      bs.length = (cache.map (fun e => 1 + e.length)).sum := by
  induction cache with
  | nil =>
    intro bs h
    obtain rfl := (Except.ok.inj h).symm
    simp
  | cons entry rest ih =>
    intro bs h
    unfold encode_cache_entries at h
    split at h
    · exact absurd h (by simp)
    · rename_i lb hlb
      split at h
      · exact absurd h (by simp)
      · rename_i tail htail
        obtain rfl := (Except.ok.inj h).symm
        have hlb1 : lb.length = 1 := by
          unfold int_to_bytes_le at hlb
          split at hlb
          · obtain rfl := (Except.ok.inj hlb).symm
            simp
          · exact absurd hlb (by simp)
        simp only [List.length_append, List.map_cons, List.sum_cons, hlb1, ih tail htail]

/-- C5: every patch produced by `diff.generate` has a write-cache region
(bytes 28..156 of the header) holding the zero-padded `[len][bytes]`
encoding of a cache whose encoded entries occupy at most 128 bytes in
total and number at most 16 entries, each a payload of at least 8
bytes. -/
theorem generate_write_cache_bound (bin_original bin_new p : Bytes)
    (h : diff.generate bin_original bin_new = .ok p) :
    ∃ (cache : List Bytes) (cache_bin : Bytes),
      encode_cache_entries cache = .ok cache_bin ∧
      (p.drop 28).take 128 = cache_bin ++ List.replicate (128 - cache_bin.length) 0 ∧
      cache_bin.length ≤ 128 ∧ cache.length ≤ 16 ∧
      ∀ e ∈ cache, 8 ≤ e.length := by
  unfold diff.generate at h
  split at h
  · exact absurd h (by simp)
  rename_i meta cacheO instrO heq
  split at h
  · rename_i instructions cache
    split at h
    · exact absurd h (by simp)
    rename_i patch_data hdata
    split at h
    · exact absurd h (by simp)
    rename_i patch_header hheader
    simp only [] at h
    split at h
    · exact absurd h (by simp)
    split at h
    · exact absurd h (by simp)
    · rename_i patched hpatch
      split at h
      · rename_i hnew
        obtain rfl := Except.ok.inj h
        have hbounded : CacheBounded cache :=
          gen_patch_instr_cache_bounded bin_original bin_new meta cache _ heq
        unfold diff._gen_patch_header at hheader
        split at hheader
        · exact absurd hheader (by simp)
        · rename_i cache_bin hcb
          simp only [] at hheader
          split at hheader
          · exact absurd hheader (by simp)
          · rename_i hpadlen
            obtain rfl := (Except.ok.inj hheader).symm
            have hcblen : cache_bin.length =
                (cache.map (fun e => 1 + e.length)).sum :=
              encode_cache_entries_length cache cache_bin hcb
            have hcb128 : cache_bin.length ≤ 128 := by
              rw [hcblen]; exact hbounded.2
            refine ⟨cache, cache_bin, hcb, ?_, hcb128, ?_, hbounded.1⟩
            · rw [show diff.cache_size = 128 from rfl]
              simp only [List.append_assoc]
              rw [show (28 : Nat) =
                    (nat_le_bytes 4 diff.magic_value).length + 24 from by
                  simp [nat_le_bytes]]
              rw [List.drop_append]
              rw [show (24 : Nat) =
                    (nat_le_bytes 4 meta.original_len).length + 20 from by
                  simp [nat_le_bytes]]
              rw [List.drop_append]
              rw [show (20 : Nat) =
                    (nat_le_bytes 4 meta.original_crc).length + 16 from by
                  simp [nat_le_bytes]]
              rw [List.drop_append]
              rw [show (16 : Nat) =
                    (nat_le_bytes 4 meta.new_len).length + 12 from by
                  simp [nat_le_bytes]]
              rw [List.drop_append]
              rw [show (12 : Nat) =
                    (nat_le_bytes 4 meta.new_crc).length + 8 from by
                  simp [nat_le_bytes]]
              rw [List.drop_append]
              rw [show (8 : Nat) =
                    (nat_le_bytes 4 patch_data.length).length + 4 from by
                  simp [nat_le_bytes]]
              rw [List.drop_append]
              rw [List.drop_left'
                (show (nat_le_bytes 4 (crc32 patch_data)).length = 4 from by
                  simp [nat_le_bytes])]
              rw [List.take_append_eq_append_take,
                List.take_of_length_le hcb128,
                List.take_left' (List.length_replicate _ _)]
            · have h9 := cache_sum_lower cache hbounded.1
              have hs := hbounded.2
              omega
      · exact absurd h (by simp)
  · exact absurd h (by simp)

/-- C5 witness: the bound holds for a concrete generated patch. -/
theorem generate_write_cache_bound_witness :
    ∃ (cache : List Bytes) (cache_bin : Bytes),
      encode_cache_entries cache = .ok cache_bin ∧
      ((((diff.generate c5orig c5orig).toOption.getD []).drop 28).take 128 =
        cache_bin ++ List.replicate (128 - cache_bin.length) 0) ∧
      cache_bin.length ≤ 128 ∧ cache.length ≤ 16 ∧
      ∀ e ∈ cache, 8 ≤ e.length :=
  generate_write_cache_bound c5orig c5orig _ (by rfl)
